import Mathlib

/-!
A shallow embedding of the download-coordination core of the repository
(task-queue.js, proxy-downloader.js, proxy-orchestrator.js, proxy-config.js),
together with theorems settling the frozen claims about it.

The Redis coordination store is modelled as a partial map from string keys to
value/expiry pairs with lazy expiration: GET treats an entry whose expiry has
passed as absent, which is observationally equivalent to Redis TTL expiry.
Times are milliseconds since the epoch (Date.now()); the EX option of SET is
in seconds, hence the * 1000 conversions.  JSON serialisation of record
values is abstracted by concatenation functions that keep every field the
source serialises; none of the claims depends on the exact JSON syntax.
-/

/-- One stored Redis entry: its string value and its absolute expiry time in
milliseconds. -/
structure Entry where
  value : String
  expiresAt : Nat
deriving DecidableEq, Repr

/-- The Redis key space, as a partial map from keys to entries. -/
abbrev Store := String → Option Entry

/-- The empty store (no keys set). -/
def emptyStore : Store := fun _ => none

/-- Redis GET with lazy expiry: an entry whose expiry time has passed is
reported absent, as Redis does for keys whose TTL has elapsed. -/
def storeGet (s : Store) (now : Nat) (k : String) : Option String :=
  match s k with
  | some e => if now < e.expiresAt then some e.value else none
  | none => none

/-- Redis SET key value EX ttlSec: unconditional write with a TTL given in
seconds. -/
def storeSet (s : Store) (now : Nat) (k v : String) (ttlSec : Nat) : Store :=
  fun q => if q = k then some ⟨v, now + ttlSec * 1000⟩ else s q

/-- Redis SET key value NX EX ttlSec: atomic set-if-absent with expiry.  The
boolean is true exactly when the store replies OK, i.e. when no unexpired
entry existed for the key. -/
def storeSetNX (s : Store) (now : Nat) (k v : String) (ttlSec : Nat) :
    Store × Bool :=
  match storeGet s now k with
  | some _ => (s, false)
  | none => (storeSet s now k v ttlSec, true)

/-- Redis DEL key. -/
def storeDel (s : Store) (k : String) : Store :=
  fun q => if q = k then none else s q

/-- The JS String.prototype.startsWith, modelled on the character lists
underlying Lean strings. -/
def jsStartsWith (s pre : String) : Bool :=
  pre.data.isPrefixOf s.data

/-- Key of the lock record for a task (task-lock prefix in task-queue.js). -/
def lockKey (taskId : String) : String := "task-lock:" ++ taskId

/-- Key of the in-progress record for a task. -/
def inProgressKey (taskId : String) : String := "task-in-progress:" ++ taskId

/-- Key of the completion record for a task. -/
def completedKey (taskId : String) : String := "task-completed:" ++ taskId

/-- Key of the failure record for a task (markFailed in task-queue.js). -/
def failedKey (taskId : String) : String := "task-failed:" ++ taskId

/-- Key of the transient skip marker used by proxy-downloader.js. -/
def skipCacheKey (filePath : String) : String := "skip-download-2:" ++ filePath

/-- Strings with prefixes of different lengths appended to the same tail are
distinct. -/
theorem append_ne_of_length_ne {a b : String} (t : String)
    (h : a.length ≠ b.length) : a ++ t ≠ b ++ t := by
  intro heq
  apply h
  have hl : (a ++ t).length = (b ++ t).length := by rw [heq]
  simp only [String.length_append] at hl
  omega

/-- The five coordination keys of a single task are pairwise distinct (their
fixed prefixes have pairwise different lengths). -/
theorem coordination_keys_distinct (t : String) :
    lockKey t ≠ inProgressKey t ∧ lockKey t ≠ completedKey t ∧
    lockKey t ≠ failedKey t ∧ lockKey t ≠ skipCacheKey t ∧
    inProgressKey t ≠ completedKey t ∧ inProgressKey t ≠ failedKey t ∧
    inProgressKey t ≠ skipCacheKey t ∧ completedKey t ≠ failedKey t ∧
    completedKey t ≠ skipCacheKey t ∧ failedKey t ≠ skipCacheKey t := by
  refine ⟨?_, ?_, ?_, ?_, ?_, ?_, ?_, ?_, ?_, ?_⟩ <;>
    exact append_ne_of_length_ne t (by decide)

/-- The metadata objects the downloader passes to markCompleted.  The source
passes plain JS objects; the three shapes that occur are kept verbatim. -/
inductive CompletionMeta where
  | alreadyExisted
  | skippedInRedis
  | transfer (fileSize : Option Nat) (downloadedByProxy : String)
deriving DecidableEq, Repr

/-- Abstraction of JSON.stringify of the completion record written by
markCompleted: completedAt timestamp plus the spread metadata. -/
def completedValue (now : Nat) (meta : CompletionMeta) : String :=
  "completedAt=" ++ Nat.repr now ++ ";" ++
    (match meta with
     | .alreadyExisted => "alreadyExisted"
     | .skippedInRedis => "skippedInRedis"
     | .transfer fs pid =>
         "fileSize=" ++ (match fs with | some n => Nat.repr n | none => "undefined")
           ++ ";downloadedByProxy=" ++ pid)

/-- Abstraction of JSON.stringify of the failure record written by
markFailed: failedAt timestamp, proxy id and error message. -/
def failureValue (now : Nat) (proxyId error : String) : String :=
  "failedAt=" ++ Nat.repr now ++ ";proxyId=" ++ proxyId ++ ";error=" ++ error

/-- TaskQueue configuration (task-queue.js constructor): TTLs in seconds. -/
structure TaskQueue where
  lockTTL : Nat
  taskTTL : Nat
deriving DecidableEq, Repr

/-- The task-queue.js constructor: options.lockTTL logical-or 3600, and
options.taskTTL logical-or 86400 (0 is falsy in JS, so 0 also falls back). -/
def mkTaskQueue (lockTTL taskTTL : Nat) : TaskQueue :=
  ⟨if lockTTL = 0 then 3600 else lockTTL, if taskTTL = 0 then 86400 else taskTTL⟩

/-- The lock value written by acquireLock: proxyId, a colon, and Date.now(). -/
def lockValue (proxyId : String) (now : Nat) : String :=
  proxyId ++ ":" ++ Nat.repr now

/-- TaskQueue.acquireLock: one atomic SET NX EX on the lock key; returns the
new store and whether the store replied OK. -/
def TaskQueue.acquireLock (q : TaskQueue) (s : Store) (now : Nat)
    (taskId proxyId : String) : Store × Bool :=
  storeSetNX s now (lockKey taskId) (lockValue proxyId now) q.lockTTL

/-- TaskQueue.releaseLock: GET the lock key; if the value is truthy and
starts with the caller identifier, DEL it and return true, else false. -/
def TaskQueue.releaseLock (_q : TaskQueue) (s : Store) (now : Nat)
    (taskId proxyId : String) : Store × Bool :=
  match storeGet s now (lockKey taskId) with
  | some v =>
      if v ≠ "" ∧ jsStartsWith v proxyId then (storeDel s (lockKey taskId), true)
      else (s, false)
  | none => (s, false)

/-- TaskQueue.markInProgress: SET of the in-progress key with the lock TTL. -/
def TaskQueue.markInProgress (q : TaskQueue) (s : Store) (now : Nat)
    (taskId proxyId : String) : Store :=
  storeSet s now (inProgressKey taskId) proxyId q.lockTTL

/-- TaskQueue.markCompleted: SET of the completion record with the task
retention TTL, then DEL of the in-progress record, then DEL of the lock. -/
def TaskQueue.markCompleted (q : TaskQueue) (s : Store) (now : Nat)
    (taskId : String) (meta : CompletionMeta) : Store :=
  let s1 := storeSet s now (completedKey taskId) (completedValue now meta) q.taskTTL
  let s2 := storeDel s1 (inProgressKey taskId)
  storeDel s2 (lockKey taskId)

/-- TaskQueue.markFailed: SET of the failure record with the task retention
TTL, then releaseLock by the failing proxy, then DEL of the in-progress
record. -/
def TaskQueue.markFailed (q : TaskQueue) (s : Store) (now : Nat)
    (taskId error proxyId : String) : Store :=
  let s1 := storeSet s now (failedKey taskId) (failureValue now proxyId error) q.taskTTL
  let s2 := (TaskQueue.releaseLock q s1 now taskId proxyId).1
  storeDel s2 (inProgressKey taskId)

/-- TaskQueue.isCompleted: GET of the completion record, null test. -/
def TaskQueue.isCompleted (_q : TaskQueue) (s : Store) (now : Nat)
    (taskId : String) : Bool :=
  storeGet s now (completedKey taskId) ≠ none

/-- A convenience name for the store produced by a successful acquireLock. -/
theorem acquireLock_success_entry (q : TaskQueue) (s : Store) (now : Nat)
    (k h1 : String) (hok : (TaskQueue.acquireLock q s now k h1).2 = true) :
    (TaskQueue.acquireLock q s now k h1).1 (lockKey k) =
      some ⟨lockValue h1 now, now + q.lockTTL * 1000⟩ := by
  unfold TaskQueue.acquireLock storeSetNX at *
  cases hg : storeGet s now (lockKey k) with
  | some v => rw [hg] at hok; simp at hok
  | none => simp [storeSet]

/-- C1: acquireLock issues one atomic set-if-absent-with-expiry and succeeds
iff no unexpired lock record exists for the key; consequently, once a holder
h1 has acquired the lock, any acquireLock for the same key performed on a
store that still carries that lock record (not released), at any time before
its TTL elapses, returns false — at most one holder at a time. -/
theorem acquireLock_mutual_exclusion (q : TaskQueue) (s : Store) (now : Nat)
    (k h1 : String) :
    ((TaskQueue.acquireLock q s now k h1).2 = true ↔
      storeGet s now (lockKey k) = none) ∧
    (∀ (s' : Store) (t : Nat) (h2 : String),
      (TaskQueue.acquireLock q s now k h1).2 = true →
      s' (lockKey k) = (TaskQueue.acquireLock q s now k h1).1 (lockKey k) →
      t < now + q.lockTTL * 1000 →
      (TaskQueue.acquireLock q s' t k h2).2 = false) := by
  constructor
  · unfold TaskQueue.acquireLock storeSetNX
    cases hg : storeGet s now (lockKey k) <;> simp
  · intro s' t h2 hok hsame ht
    have hentry := acquireLock_success_entry q s now k h1 hok
    unfold TaskQueue.acquireLock storeSetNX
    have : storeGet s' t (lockKey k) =
        some (lockValue h1 now) := by
      unfold storeGet
      rw [hsame, hentry]
      simp [ht]
    rw [this]

/-- Witness for C1 at concrete inputs: proxy p1 acquires the lock on task f
at time 1000 with the default TTL, and an acquisition by p2 at time 2000
(before expiry) fails. -/
theorem acquireLock_mutual_exclusion_witness :
    (TaskQueue.acquireLock (mkTaskQueue 0 0) emptyStore 1000 "f" "p1").2 = true ∧
    (2000 < 1000 + (mkTaskQueue 0 0).lockTTL * 1000) ∧
    (TaskQueue.acquireLock (mkTaskQueue 0 0)
      (TaskQueue.acquireLock (mkTaskQueue 0 0) emptyStore 1000 "f" "p1").1
      2000 "f" "p2").2 = false :=
  ⟨by decide, by decide,
    (acquireLock_mutual_exclusion (mkTaskQueue 0 0) emptyStore 1000 "f" "p1").2
      (TaskQueue.acquireLock (mkTaskQueue 0 0) emptyStore 1000 "f" "p1").1
      2000 "p2" (by decide) rfl (by decide)⟩

/-- C3 counterexample: with the lock on task f recorded for holder proxy1
(stored value proxy1:1000), a releaseLock by the distinct identity proxy —
which is a string prefix of the recorded value — returns true and deletes
the other holder's lock record, contradicting the claim that releaseLock by
any h2 different from the recorded holder returns false and leaves the
record unchanged. -/
theorem releaseLock_wrong_holder_counterexample :
    ("proxy" ≠ "proxy1") ∧
    storeGet (TaskQueue.acquireLock (mkTaskQueue 0 0) emptyStore 1000 "f" "proxy1").1
      2000 (lockKey "f") = some (lockValue "proxy1" 1000) ∧
    (TaskQueue.releaseLock (mkTaskQueue 0 0)
      (TaskQueue.acquireLock (mkTaskQueue 0 0) emptyStore 1000 "f" "proxy1").1
      2000 "f" "proxy").2 = true ∧
    (TaskQueue.releaseLock (mkTaskQueue 0 0)
      (TaskQueue.acquireLock (mkTaskQueue 0 0) emptyStore 1000 "f" "proxy1").1
      2000 "f" "proxy").1 (lockKey "f") = none := by
  exact ⟨by decide, by decide, by decide, by decide⟩

/-- The lock value written by acquireLock is never the empty string. -/
theorem lockValue_ne_empty (proxyId : String) (now : Nat) :
    lockValue proxyId now ≠ "" := by
  intro h
  have hl := congrArg String.length h
  simp only [lockValue, String.length_append] at hl
  have h1 : (":" : String).length = 1 := by decide
  have h2 : ("" : String).length = 0 := by decide
  rw [h1, h2] at hl
  omega

/-- A holder's identifier is a prefix of the lock value it wrote. -/
theorem jsStartsWith_lockValue_self (proxyId : String) (now : Nat) :
    jsStartsWith (lockValue proxyId now) proxyId = true := by
  simp only [jsStartsWith, lockValue, String.data_append,
    List.isPrefixOf_iff_prefix, List.append_assoc]
  exact List.prefix_append _ _

/-- C3 (amended): releaseLock verifies the holder by a string-prefix test on
the recorded value (holder, colon, timestamp), not by holder equality.
After h1 acquires the lock, a release attempt by any identity h2 that is not
a string prefix of the recorded value returns false and leaves the store
unchanged, and h1 itself (whose id is always a prefix of the value it wrote)
releases successfully; an h2 that happens to be a prefix of the recorded
value can however delete another holder's lock (see the counterexample). -/
theorem releaseLock_holder_check
    (q : TaskQueue) (s : Store) (now now2 : Nat) (k h1 h2 : String)
    (hok : (TaskQueue.acquireLock q s now k h1).2 = true)
    (hfresh : now2 < now + q.lockTTL * 1000) :
    (jsStartsWith (lockValue h1 now) h2 = false →
      TaskQueue.releaseLock q (TaskQueue.acquireLock q s now k h1).1 now2 k h2 =
        ((TaskQueue.acquireLock q s now k h1).1, false)) ∧
    (TaskQueue.releaseLock q (TaskQueue.acquireLock q s now k h1).1 now2 k h1 =
      (storeDel (TaskQueue.acquireLock q s now k h1).1 (lockKey k), true)) := by
  have hentry := acquireLock_success_entry q s now k h1 hok
  have hget : storeGet (TaskQueue.acquireLock q s now k h1).1 now2 (lockKey k) =
      some (lockValue h1 now) := by
    unfold storeGet
    rw [hentry]
    simp [hfresh]
  constructor
  · intro hns
    simp [TaskQueue.releaseLock, hget, hns]
  · simp [TaskQueue.releaseLock, hget, jsStartsWith_lockValue_self,
      lockValue_ne_empty]

/-- Witness for the amended C3 theorem at concrete inputs: holder p1, the
non-prefix identity zz is refused. -/
theorem releaseLock_holder_check_witness :
    ((TaskQueue.acquireLock (mkTaskQueue 0 0) emptyStore 1000 "f" "p1").2 = true ∧
     2000 < 1000 + (mkTaskQueue 0 0).lockTTL * 1000 ∧
     jsStartsWith (lockValue "p1" 1000) "zz" = false) ∧
    TaskQueue.releaseLock (mkTaskQueue 0 0)
      (TaskQueue.acquireLock (mkTaskQueue 0 0) emptyStore 1000 "f" "p1").1
      2000 "f" "zz" =
      ((TaskQueue.acquireLock (mkTaskQueue 0 0) emptyStore 1000 "f" "p1").1, false) :=
  ⟨⟨by decide, by decide, by decide⟩,
   (releaseLock_holder_check (mkTaskQueue 0 0) emptyStore 1000 2000 "f" "p1" "zz"
     (by decide) (by decide)).1 (by decide)⟩

/-- Effect of one markCompleted call on the store, stated once so that both
the frame theorem and the downloader theorems can use it. -/
theorem markCompleted_spec
    (q : TaskQueue) (s : Store) (now : Nat) (k : String) (meta : CompletionMeta) :
    TaskQueue.markCompleted q s now k meta (completedKey k) =
      some ⟨completedValue now meta, now + q.taskTTL * 1000⟩ ∧
    TaskQueue.markCompleted q s now k meta (inProgressKey k) = none ∧
    TaskQueue.markCompleted q s now k meta (lockKey k) = none ∧
    ∀ x, x ≠ completedKey k → x ≠ inProgressKey k → x ≠ lockKey k →
      TaskQueue.markCompleted q s now k meta x = s x := by
  obtain ⟨d1, d2, _, _, d5, _, _, _, _, _⟩ := coordination_keys_distinct k
  unfold TaskQueue.markCompleted storeSet storeDel
  refine ⟨?_, ?_, ?_, ?_⟩
  · simp [if_neg d2.symm, if_neg d5.symm]
  · simp [if_neg d1.symm]
  · simp
  · intro x hx1 hx2 hx3
    simp [if_neg hx3, if_neg hx2, if_neg hx1]

/-- A releaseLock issued after markCompleted on the same task finds no lock
record (markCompleted already deleted it) and is a refused no-op. -/
theorem releaseLock_after_markCompleted
    (q q2 : TaskQueue) (s : Store) (now now2 : Nat) (k pid : String)
    (meta : CompletionMeta) :
    TaskQueue.releaseLock q2 (TaskQueue.markCompleted q s now k meta) now2 k pid =
      (TaskQueue.markCompleted q s now k meta, false) := by
  have hnone := (markCompleted_spec q s now k meta).2.2.1
  unfold TaskQueue.releaseLock storeGet
  rw [hnone]

/-- C4: markCompleted writes the completion record under the retention TTL,
deletes exactly the in-progress record and the lock record of the same task,
and leaves every other store key unchanged. -/
theorem markCompleted_frame
    (q : TaskQueue) (s : Store) (now : Nat) (k : String) (meta : CompletionMeta) :
    TaskQueue.markCompleted q s now k meta (completedKey k) =
      some ⟨completedValue now meta, now + q.taskTTL * 1000⟩ ∧
    TaskQueue.markCompleted q s now k meta (inProgressKey k) = none ∧
    TaskQueue.markCompleted q s now k meta (lockKey k) = none ∧
    ∀ x, x ≠ completedKey k → x ≠ inProgressKey k → x ≠ lockKey k →
      TaskQueue.markCompleted q s now k meta x = s x :=
  markCompleted_spec q s now k meta

/-- Witness for C4 at concrete inputs: task t, an unrelated key other is
untouched while the three coordination keys of t change as stated. -/
theorem markCompleted_frame_witness :
    ("other" ≠ completedKey "t" ∧ "other" ≠ inProgressKey "t" ∧
      "other" ≠ lockKey "t") ∧
    TaskQueue.markCompleted (mkTaskQueue 0 0) emptyStore 5 "t"
      CompletionMeta.alreadyExisted "other" = emptyStore "other" :=
  ⟨⟨by decide, by decide, by decide⟩,
   (markCompleted_frame (mkTaskQueue 0 0) emptyStore 5 "t"
     CompletionMeta.alreadyExisted).2.2.2 "other" (by decide) (by decide) (by decide)⟩

/-- Concurrency and download configuration (getConcurrencyConfig in
proxy-config.js); only the fields downloadFile reads are kept.  The
multiplier is parsed with parseFloat; its default and every documented value
are integral, and the embedding keeps it a natural number. -/
structure Config where
  downloadTimeout : Nat
  maxRedirects : Nat
  skipCacheTTL : Nat
  maxRetries : Nat
  retryBackoffMultiplier : Nat
  retryBaseDelay : Nat
deriving DecidableEq, Repr

/-- The defaults of getConcurrencyConfig with no environment overrides. -/
def defaultConfig : Config :=
  ⟨600000, 1, 3600, 3, 2, 1000⟩

/-- A file attachment (the object destructured by downloadFile). -/
structure Attachment where
  url : String
  filename : String
  outputPath : String
  outputFilePath : String
deriving DecidableEq, Repr

/-- One network observation consumed by an issued HTTPS request.  A redirect
is a 3xx response carrying a location header; badStatus is any other
non-200/non-304 response; success, timeout and netError are the three ways
the 200/304 streaming phase can end (stream finished, the per-download
deadline fired, or a request/stream error event). -/
inductive HttpEvent where
  | redirect (location : String)
  | badStatus (code : Nat)
  | success (fileSize : Nat)
  | timeout
  | netError (msg : String)
deriving DecidableEq, Repr

/-- Protocol-level coordination operations performed by downloadFile, in
order, against the shared TaskQueue and the skip cache. -/
inductive CoordOp where
  | acquire (taskId proxyId : String) (ok : Bool)
  | inProgress (taskId proxyId : String)
  | completed (taskId : String) (meta : CompletionMeta)
  | failed (taskId error proxyId : String)
  | release (taskId proxyId : String)
  | skipSet (filePath : String)
deriving DecidableEq, Repr

/-- The object downloadFile resolves with. -/
structure DlResult where
  success : Bool
  cached : Bool := false
  skipped : Bool := false
  lockedByOther : Bool := false
  fileSize : Option Nat := none
  proxyId : String
deriving DecidableEq, Repr

/-- How one downloadFile invocation ends.  resolved/rejected are the two
promise settlements; crashed models an exception thrown inside the https
response event callback, which the promise executor's try/catch cannot
intercept (the non-200/304 throw in the source); pending means the modelled
event trace ended before the request got a response; noFuel is the
out-of-fuel marker of the bounded evaluator and is unreachable from the
entry point with adequate fuel. -/
inductive Outcome where
  | resolved (r : DlResult)
  | rejected (msg : String)
  | crashed (msg : String)
  | pending
  | noFuel
deriving DecidableEq, Repr

/-- The mutable context one downloadFile call runs in: the Redis store, the
set of locally existing file paths, the current time in milliseconds, and
instrumentation (ordered coordination ops, retry delays, issued requests,
per-proxy success/failure counters). -/
structure DlState where
  store : Store
  fs : List String
  now : Nat
  ops : List CoordOp
  delays : List Nat
  requests : Nat
  successCount : Nat
  failureCount : Nat

/-- An initial state: a given store and filesystem at a given time, with
empty instrumentation. -/
def initState (s : Store) (fs : List String) (now : Nat) : DlState :=
  ⟨s, fs, now, [], [], 0, 0, 0⟩

/-- State update for a markCompleted call made by downloadFile. -/
def recMarkCompleted (q : TaskQueue) (st : DlState) (taskId : String)
    (meta : CompletionMeta) : DlState :=
  { st with
    store := TaskQueue.markCompleted q st.store st.now taskId meta,
    ops := st.ops ++ [CoordOp.completed taskId meta] }

/-- State update for a markInProgress call made by downloadFile. -/
def recMarkInProgress (q : TaskQueue) (st : DlState) (taskId proxyId : String) :
    DlState :=
  { st with
    store := TaskQueue.markInProgress q st.store st.now taskId proxyId,
    ops := st.ops ++ [CoordOp.inProgress taskId proxyId] }

/-- State update for a markFailed call made by downloadFile. -/
def recMarkFailed (q : TaskQueue) (st : DlState) (taskId error proxyId : String) :
    DlState :=
  { st with
    store := TaskQueue.markFailed q st.store st.now taskId error proxyId,
    ops := st.ops ++ [CoordOp.failed taskId error proxyId],
    failureCount := st.failureCount + 1 }

/-- State update for a releaseLock call made directly by downloadFile. -/
def recReleaseLock (q : TaskQueue) (st : DlState) (taskId proxyId : String) :
    DlState :=
  let r := TaskQueue.releaseLock q st.store st.now taskId proxyId
  { st with
    store := r.1,
    ops := st.ops ++ [CoordOp.release taskId proxyId] }

/-- State update for an acquireLock call made by downloadFile; also returns
whether the lock was obtained. -/
def recAcquireLock (q : TaskQueue) (st : DlState) (taskId proxyId : String) :
    DlState × Bool :=
  let r := TaskQueue.acquireLock q st.store st.now taskId proxyId
  ({ st with
     store := r.1,
     ops := st.ops ++ [CoordOp.acquire taskId proxyId r.2] }, r.2)

/-- State update for the skip-cache SET performed by the timeout handler. -/
def recSkipSet (cfg : Config) (st : DlState) (filePath : String) : DlState :=
  { st with
    store := storeSet st.store st.now (skipCacheKey filePath) "true" cfg.skipCacheTTL,
    ops := st.ops ++ [CoordOp.skipSet filePath] }

/-- Increment the issued-request counter (one https.get call). -/
def bumpRequests (st : DlState) : DlState :=
  { st with requests := st.requests + 1 }

/-- Remove the destination file if present (fs.unlinkSync on error paths). -/
def unlinkFile (taskId : String) (st : DlState) : DlState :=
  { st with fs := st.fs.filter (fun p => p ≠ taskId) }

/-- Record the destination file as present (the finished write stream). -/
def addFile (taskId : String) (st : DlState) : DlState :=
  { st with fs := taskId :: st.fs }

/-- Increment the per-proxy success counter. -/
def bumpSuccess (st : DlState) : DlState :=
  { st with successCount := st.successCount + 1 }

/-- The exponential backoff delay computed before the retry that increments
attemptCount from i: baseDelay times multiplier to the i. -/
def backoff (cfg : Config) (i : Nat) : Nat :=
  cfg.retryBaseDelay * cfg.retryBackoffMultiplier ^ i

/-- The state passed to the recursive retry call: the clock advanced by the
backoff delay and the delay recorded. -/
def retryState (cfg : Config) (ac : Nat) (st : DlState) : DlState :=
  { st with now := st.now + backoff cfg ac, delays := st.delays ++ [backoff cfg ac] }

/-- The downloadFile method of proxy-downloader.js, as a bounded evaluator.
The fuel argument only bounds recursion depth (each recursive call of the
source — one per followed redirect and one per scheduled retry — consumes
one unit); every theorem below either holds for all fuel or supplies fuel
exceeding the recursion depth, which is at most maxRetries plus the length
of the event trace.  The body mirrors the source order: local existence
check (resolve cached), skip-cache check (resolve skipped), acquireLock
(resolve lockedByOther on failure), markInProgress, redirect-limit check
(throw caught by the executor and rejected), then one HTTPS request whose
response is the next event of the trace.  A successful resolution then runs
the source's then-continuation (markCompleted with transfer metadata,
releaseLock, success counter), and a rejection runs the catch-continuation
(backoff retry while attempts remain, else markFailed).  The read-only
getInProgressProxy call on the lockedByOther path touches no state and is
not recorded.  A non-200/304 response status is thrown inside the https
response event callback, outside the executor's try/catch, so it crashes
instead of rejecting.  The clock advances only by retry backoff delays. -/
def downloadFileF : Nat → Config → TaskQueue → String → Attachment → Nat → Nat →
    List HttpEvent → DlState → Outcome × DlState × List HttpEvent
  | 0, _, _, _, _, _, _, events, st => (Outcome.noFuel, st, events)
  | fuel + 1, cfg, q, pid, att, redirectCount, attemptCount, events, st =>
    let taskId := att.outputFilePath
    let lockPhase : Outcome × DlState × List HttpEvent :=
      let ar := recAcquireLock q st taskId pid
      if ar.2 = true then
        let st2 := recMarkInProgress q ar.1 taskId pid
        if cfg.maxRedirects < redirectCount then
          (Outcome.rejected "Too many redirects", st2, events)
        else
          match events with
          | [] => (Outcome.pending, st2, events)
          | e :: rest =>
            let st3 := bumpRequests st2
            match e with
            | HttpEvent.redirect loc =>
                downloadFileF fuel cfg q pid { att with url := loc }
                  (redirectCount + 1) attemptCount rest st3
            | HttpEvent.badStatus c =>
                if c = 200 ∨ c = 304 then (Outcome.pending, st3, rest)
                else
                  (Outcome.crashed ("HTTP " ++ Nat.repr c ++ " for " ++ att.filename),
                    st3, rest)
            | HttpEvent.timeout =>
                (Outcome.rejected "Download timeout",
                  recReleaseLock q (recSkipSet cfg (unlinkFile taskId st3) taskId)
                    taskId pid, rest)
            | HttpEvent.netError m =>
                (Outcome.rejected m, unlinkFile taskId st3, rest)
            | HttpEvent.success n =>
                (Outcome.resolved { success := true, fileSize := some n, proxyId := pid },
                  addFile taskId st3, rest)
      else
        (Outcome.resolved { success := false, lockedByOther := true, proxyId := pid },
          ar.1, events)
    let inner : Outcome × DlState × List HttpEvent :=
      if st.fs.contains taskId then
        (Outcome.resolved { success := true, cached := true, proxyId := pid },
          recMarkCompleted q st taskId CompletionMeta.alreadyExisted, events)
      else
        match storeGet st.store st.now (skipCacheKey taskId) with
        | some v =>
            if v ≠ "" then
              (Outcome.resolved { success := true, skipped := true, proxyId := pid },
                recMarkCompleted q st taskId CompletionMeta.skippedInRedis, events)
            else lockPhase
        | none => lockPhase
    match inner with
    | (Outcome.resolved r, st', rem) =>
        (Outcome.resolved r,
          bumpSuccess (recReleaseLock q
            (recMarkCompleted q st' taskId (CompletionMeta.transfer r.fileSize pid))
            taskId pid), rem)
    | (Outcome.rejected m, st', rem) =>
        if attemptCount < cfg.maxRetries then
          downloadFileF fuel cfg q pid att redirectCount (attemptCount + 1) rem
            (retryState cfg attemptCount st')
        else
          (Outcome.rejected m, recMarkFailed q st' taskId m pid, rem)
    | other => other

/-- The entry point of downloadFile as invoked by the batch paths: redirect
and attempt counters start at 0, and the fuel strictly dominates the
recursion depth. -/
def ProxyDownloader.downloadFile (cfg : Config) (q : TaskQueue) (proxyId : String)
    (att : Attachment) (events : List HttpEvent) (st : DlState) :
    Outcome × DlState × List HttpEvent :=
  downloadFileF (cfg.maxRetries + events.length + 2) cfg q proxyId att 0 0 events st

/-- The attachment used by the concrete scenarios below. -/
def attScenario : Attachment := ⟨"u", "f", "out", "out/f"⟩

/-- True exactly for markInProgress operations. -/
def isInProgressOp : CoordOp → Bool
  | CoordOp.inProgress _ _ => true
  | _ => false

/-- True exactly for markFailed operations. -/
def isFailedOp : CoordOp → Bool
  | CoordOp.failed _ _ _ => true
  | _ => false

/-- True exactly for markCompleted operations. -/
def isCompletedOp : CoordOp → Bool
  | CoordOp.completed _ _ => true
  | _ => false

/-- True exactly for the markCompleted call of the success continuation when
it carries an actual transferred file size (a fresh transfer). -/
def isTransferCompletedOp : CoordOp → Bool
  | CoordOp.completed _ (CompletionMeta.transfer (some _) _) => true
  | _ => false

/-- C2 counterexample: with the destination file already present locally and
an empty coordination store, downloadFile performs no transfer (zero
requests issued) and resolves as cached, yet it writes a task-completed
record for the key — twice, once with alreadyExisted metadata and once more
in the resolve continuation — so the exists-locally outcome is recorded as
a completion, not as a mere skip. -/
theorem downloadFile_exists_marks_completed_counterexample :
    (ProxyDownloader.downloadFile defaultConfig (mkTaskQueue 0 0) "lh" attScenario
      [] (initState emptyStore ["out/f"] 100)).2.1.requests = 0 ∧
    (ProxyDownloader.downloadFile defaultConfig (mkTaskQueue 0 0) "lh" attScenario
      [] (initState emptyStore ["out/f"] 100)).1 =
      Outcome.resolved { success := true, cached := true, proxyId := "lh" } ∧
    (ProxyDownloader.downloadFile defaultConfig (mkTaskQueue 0 0) "lh" attScenario
      [] (initState emptyStore ["out/f"] 100)).2.1.ops =
      [CoordOp.completed "out/f" CompletionMeta.alreadyExisted,
       CoordOp.completed "out/f" (CompletionMeta.transfer none "lh"),
       CoordOp.release "out/f" "lh"] ∧
    (ProxyDownloader.downloadFile defaultConfig (mkTaskQueue 0 0) "lh" attScenario
      [] (initState emptyStore ["out/f"] 100)).2.1.store (completedKey "out/f") ≠
      none := by
  exact ⟨by decide, by decide, by decide, by decide⟩

/-- C6 (code bug evaluation): with MAX_REDIRECTS = 1 and a response chain
carrying two redirects, downloadFile never raises the terminal Too many
redirects error.  The recursive call made for the first redirect hop fails
to re-acquire the lock the task itself already holds, resolves as
lockedByOther after a single issued request, leaves the second redirect
response unconsumed, and the resolve continuation then records the task as
completed and deletes the lock — no failed attempt is counted and no retry
becomes possible. -/
theorem downloadFile_two_redirects_never_too_many :
    (ProxyDownloader.downloadFile defaultConfig (mkTaskQueue 0 0) "lh" attScenario
      [HttpEvent.redirect "u2", HttpEvent.redirect "u3"]
      (initState emptyStore [] 100)).1 =
      Outcome.resolved { success := false, lockedByOther := true, proxyId := "lh" } ∧
    (ProxyDownloader.downloadFile defaultConfig (mkTaskQueue 0 0) "lh" attScenario
      [HttpEvent.redirect "u2", HttpEvent.redirect "u3"]
      (initState emptyStore [] 100)).2.1.requests = 1 ∧
    (ProxyDownloader.downloadFile defaultConfig (mkTaskQueue 0 0) "lh" attScenario
      [HttpEvent.redirect "u2", HttpEvent.redirect "u3"]
      (initState emptyStore [] 100)).2.2 = [HttpEvent.redirect "u3"] ∧
    ((ProxyDownloader.downloadFile defaultConfig (mkTaskQueue 0 0) "lh" attScenario
      [HttpEvent.redirect "u2", HttpEvent.redirect "u3"]
      (initState emptyStore [] 100)).2.1.ops.any isFailedOp) = false ∧
    (ProxyDownloader.downloadFile defaultConfig (mkTaskQueue 0 0) "lh" attScenario
      [HttpEvent.redirect "u2", HttpEvent.redirect "u3"]
      (initState emptyStore [] 100)).2.1.ops.any isCompletedOp = true ∧
    (ProxyDownloader.downloadFile defaultConfig (mkTaskQueue 0 0) "lh" attScenario
      [HttpEvent.redirect "u2", HttpEvent.redirect "u3"]
      (initState emptyStore [] 100)).2.1.store (completedKey "out/f") ≠ none ∧
    (ProxyDownloader.downloadFile defaultConfig (mkTaskQueue 0 0) "lh" attScenario
      [HttpEvent.redirect "u2", HttpEvent.redirect "u3"]
      (initState emptyStore [] 100)).2.1.store (lockKey "out/f") = none := by
  exact ⟨by decide, by decide, by decide, by decide, by decide, by decide, by decide⟩

/-- C9 counterexample: with a skip-cache entry present for the key (set by
an earlier timeout) and nothing else, downloadFile writes a completed
record for the key without ever having written an in-progress record, and
the first completed write is followed by further coordination writes for
the same key (a second markCompleted and a releaseLock) — refuting both
halves of the per-task ordering claim. -/
theorem downloadFile_skip_age_order_counterexample :
    (ProxyDownloader.downloadFile defaultConfig (mkTaskQueue 0 0) "lh" attScenario
      [] (initState (storeSet emptyStore 50 (skipCacheKey "out/f") "true" 3600)
        [] 100)).2.1.ops =
      [CoordOp.completed "out/f" CompletionMeta.skippedInRedis,
       CoordOp.completed "out/f" (CompletionMeta.transfer none "lh"),
       CoordOp.release "out/f" "lh"] ∧
    ((ProxyDownloader.downloadFile defaultConfig (mkTaskQueue 0 0) "lh" attScenario
      [] (initState (storeSet emptyStore 50 (skipCacheKey "out/f") "true" 3600)
        [] 100)).2.1.ops.any isInProgressOp) = false := by
  exact ⟨by decide, by decide⟩

/-- An acquireLock attempted while an unexpired lock record exists is a
refused no-op. -/
theorem acquireLock_locked (q : TaskQueue) (s : Store) (now : Nat)
    (k pid v : String) (h : storeGet s now (lockKey k) = some v) :
    TaskQueue.acquireLock q s now k pid = (s, false) := by
  unfold TaskQueue.acquireLock storeSetNX
  rw [h]

/-- A downloadFile call made while the coordination store holds an unexpired
lock record for its task issues no request, schedules no retry delay,
consumes no event, and can only end resolved (with no transferred file
size) or out of fuel: it resolves on the exists or skip-cache path, or its
acquireLock is refused and it resolves lockedByOther. -/
theorem downloadFileF_locked (fuel : Nat) (cfg : Config) (q : TaskQueue)
    (pid : String) (att : Attachment) (rc ac : Nat) (events : List HttpEvent)
    (st : DlState) (v : String)
    (h : storeGet st.store st.now (lockKey att.outputFilePath) = some v) :
    (downloadFileF fuel cfg q pid att rc ac events st).2.1.requests = st.requests ∧
    (downloadFileF fuel cfg q pid att rc ac events st).2.1.delays = st.delays ∧
    (downloadFileF fuel cfg q pid att rc ac events st).2.2 = events ∧
    (∀ r, (downloadFileF fuel cfg q pid att rc ac events st).1 =
      Outcome.resolved r → r.fileSize = none) ∧
    (∀ m, (downloadFileF fuel cfg q pid att rc ac events st).1 ≠
      Outcome.rejected m) := by
  cases fuel with
  | zero => simp [downloadFileF]
  | succ n =>
    have hacq := acquireLock_locked q st.store st.now att.outputFilePath pid v h
    by_cases hc : att.outputFilePath ∈ st.fs
    · simp [downloadFileF, hc, recMarkCompleted, recReleaseLock, bumpSuccess]
    · cases hskip : storeGet st.store st.now (skipCacheKey att.outputFilePath) with
      | some w =>
        by_cases hw : w = ""
        · subst hw
          simp [downloadFileF, hc, hskip, recAcquireLock, hacq,
            recMarkCompleted, recReleaseLock, bumpSuccess]
        · simp [downloadFileF, hc, hskip, hw, recMarkCompleted, recReleaseLock,
            bumpSuccess]
      | none =>
        simp [downloadFileF, hc, hskip, recAcquireLock, hacq,
          recMarkCompleted, recReleaseLock, bumpSuccess]

/-- Boolean checker for trace ordering: every operation satisfying t is
preceded (strictly earlier in the list) by one satisfying p; seen records
whether a p-operation already occurred. -/
def opsPrecedeB (p t : CoordOp → Bool) : Bool → List CoordOp → Bool
  | _, [] => true
  | seen, x :: xs => (!(t x) || seen) && opsPrecedeB p t (seen || p x) xs

/-- Once a p-operation has been seen, the ordering check always passes. -/
theorem opsPrecedeB_true (p t : CoordOp → Bool) (l : List CoordOp) :
    opsPrecedeB p t true l = true := by
  induction l with
  | nil => rfl
  | cons x xs ih => simp [opsPrecedeB, ih]

/-- Splitting the ordering check across a concatenation. -/
theorem opsPrecedeB_append (p t : CoordOp → Bool) (seen : Bool)
    (A B : List CoordOp) :
    opsPrecedeB p t seen (A ++ B) =
      (opsPrecedeB p t seen A && opsPrecedeB p t (seen || A.any p) B) := by
  induction A generalizing seen with
  | nil => simp [opsPrecedeB]
  | cons x xs ih =>
    simp [opsPrecedeB, ih, Bool.or_assoc, Bool.and_assoc]

/-- The store component of releaseLock is either the input store or the
input store with the lock key deleted. -/
theorem releaseLock_store_cases (q : TaskQueue) (s : Store) (now : Nat)
    (k pid : String) :
    (TaskQueue.releaseLock q s now k pid).1 = s ∨
    (TaskQueue.releaseLock q s now k pid).1 = storeDel s (lockKey k) := by
  unfold TaskQueue.releaseLock
  cases storeGet s now (lockKey k) with
  | none => exact Or.inl rfl
  | some v =>
    by_cases hv : v ≠ "" ∧ jsStartsWith v pid
    · right; simp [hv]
    · left; simp [hv]

/-- markFailed always leaves the task's failure record present, with the
retention TTL. -/
theorem markFailed_failedKey (q : TaskQueue) (s : Store) (now : Nat)
    (k e pid : String) :
    TaskQueue.markFailed q s now k e pid (failedKey k) =
      some ⟨failureValue now pid e, now + q.taskTTL * 1000⟩ := by
  obtain ⟨_, _, h3, _, _, h6, _, h8, _, _⟩ := coordination_keys_distinct k
  unfold TaskQueue.markFailed
  rcases releaseLock_store_cases q
      (storeSet s now (failedKey k) (failureValue now pid e) q.taskTTL) now k pid
    with hrel | hrel <;>
    simp [hrel, storeDel, storeSet, if_neg h6.symm, if_neg h3.symm]

/-- After a successful acquireLock followed by markInProgress, the lock
record is present and unexpired at the same instant (the in-progress key is
a different key, and the lock TTL is positive). -/
theorem lock_visible_to_child (q : TaskQueue) (s : Store) (now : Nat)
    (k pid : String) (hq : 0 < q.lockTTL)
    (hok : (TaskQueue.acquireLock q s now k pid).2 = true) :
    storeGet (TaskQueue.markInProgress q (TaskQueue.acquireLock q s now k pid).1
      now k pid) now (lockKey k) = some (lockValue pid now) := by
  have he := acquireLock_success_entry q s now k pid hok
  obtain ⟨d1, _⟩ := coordination_keys_distinct k
  have hlt : now < now + q.lockTTL * 1000 := by omega
  simp only [storeGet, TaskQueue.markInProgress, storeSet]
  rw [if_neg d1, he]
  simp [hlt]

/-- The bundle of invariants proved about every downloadFileF call: the
coordination trace only grows, failure and fresh-transfer completion writes
are preceded by an in-progress write, a surfaced rejection ends the trace
with the matching markFailed and leaves the failure record present, the
number of issued requests is bounded by the remaining attempt budget, and
the recorded retry delays follow the exponential backoff schedule from the
current attempt index. -/
def DlInv (cfg : Config) (q : TaskQueue) (pid : String) (fuel : Nat)
    (att : Attachment) (rc ac : Nat) (events : List HttpEvent) (st : DlState) :
    Prop :=
  (∃ op, (downloadFileF fuel cfg q pid att rc ac events st).2.1.ops = st.ops ++ op ∧
    opsPrecedeB isInProgressOp isFailedOp false op = true ∧
    opsPrecedeB isInProgressOp isTransferCompletedOp false op = true ∧
    (∀ m, (downloadFileF fuel cfg q pid att rc ac events st).1 = Outcome.rejected m →
      (∃ op0, op = op0 ++ [CoordOp.failed att.outputFilePath m pid]) ∧
        op.any isInProgressOp = true)) ∧
  (downloadFileF fuel cfg q pid att rc ac events st).2.1.requests ≤
    st.requests + (cfg.maxRetries + 1 - ac) ∧
  (∃ k, (downloadFileF fuel cfg q pid att rc ac events st).2.1.delays =
      st.delays ++ (List.range' ac k).map (backoff cfg) ∧
    (ac + k ≤ cfg.maxRetries ∨ k = 0)) ∧
  (∀ m, (downloadFileF fuel cfg q pid att rc ac events st).1 = Outcome.rejected m →
    (downloadFileF fuel cfg q pid att rc ac events st).2.1.store
      (failedKey att.outputFilePath) ≠ none)

/-- Composition for the trace invariant: once a prefix of well-ordered
operations containing an in-progress write has been emitted, any
continuation trace may follow and the combined trace stays well ordered;
a trailing markFailed decomposition lifts through the prefix. -/
theorem ops_lift (taskId pid : String) (stOps : List CoordOp)
    (Δpre Δ2 resOps : List CoordOp) (o : Outcome)
    (hres : resOps = (stOps ++ Δpre) ++ Δ2)
    (hpre1 : opsPrecedeB isInProgressOp isFailedOp false Δpre = true)
    (hpre2 : opsPrecedeB isInProgressOp isTransferCompletedOp false Δpre = true)
    (hmip : Δpre.any isInProgressOp = true)
    (hrej : ∀ m, o = Outcome.rejected m →
      ∃ op0, Δ2 = op0 ++ [CoordOp.failed taskId m pid]) :
    ∃ op, resOps = stOps ++ op ∧
      opsPrecedeB isInProgressOp isFailedOp false op = true ∧
      opsPrecedeB isInProgressOp isTransferCompletedOp false op = true ∧
      (∀ m, o = Outcome.rejected m →
        (∃ op0, op = op0 ++ [CoordOp.failed taskId m pid]) ∧
          op.any isInProgressOp = true) := by
  refine ⟨Δpre ++ Δ2, by rw [hres, List.append_assoc], ?_, ?_, ?_⟩
  · rw [opsPrecedeB_append, hpre1, hmip]
    simp [opsPrecedeB_true]
  · rw [opsPrecedeB_append, hpre2, hmip]
    simp [opsPrecedeB_true]
  · intro m hm
    obtain ⟨op0, hop0⟩ := hrej m hm
    constructor
    · exact ⟨Δpre ++ op0, by rw [hop0, List.append_assoc]⟩
    · simp [List.any_append, hmip]

/-- Composition for the catch-continuation retry: when a frame whose emitted
prefix contains an in-progress write schedules a backoff retry, the
recursive call satisfies the full invariant bundle relative to the original
state. -/
theorem retry_compose (cfg : Config) (q : TaskQueue) (pid : String) (n : Nat)
    (IH : ∀ att rc ac events st, ac ≤ cfg.maxRetries →
      DlInv cfg q pid n att rc ac events st)
    (att : Attachment) (rc ac : Nat) (rem : List HttpEvent)
    (st stMid : DlState) (Δpre : List CoordOp) (dreq : Nat)
    (hops : stMid.ops = st.ops ++ Δpre)
    (hpre1 : opsPrecedeB isInProgressOp isFailedOp false Δpre = true)
    (hpre2 : opsPrecedeB isInProgressOp isTransferCompletedOp false Δpre = true)
    (hmip : Δpre.any isInProgressOp = true)
    (hreq : stMid.requests ≤ st.requests + dreq)
    (hdreq : dreq ≤ 1)
    (hdel : stMid.delays = st.delays)
    (hretry : ac < cfg.maxRetries) :
    (∃ op, (downloadFileF n cfg q pid att rc (ac + 1) rem
        (retryState cfg ac stMid)).2.1.ops = st.ops ++ op ∧
      opsPrecedeB isInProgressOp isFailedOp false op = true ∧
      opsPrecedeB isInProgressOp isTransferCompletedOp false op = true ∧
      (∀ m, (downloadFileF n cfg q pid att rc (ac + 1) rem
          (retryState cfg ac stMid)).1 = Outcome.rejected m →
        (∃ op0, op = op0 ++ [CoordOp.failed att.outputFilePath m pid]) ∧
          op.any isInProgressOp = true)) ∧
    (downloadFileF n cfg q pid att rc (ac + 1) rem
        (retryState cfg ac stMid)).2.1.requests ≤
      st.requests + (cfg.maxRetries + 1 - ac) ∧
    (∃ k, (downloadFileF n cfg q pid att rc (ac + 1) rem
        (retryState cfg ac stMid)).2.1.delays =
        st.delays ++ (List.range' ac k).map (backoff cfg) ∧
      (ac + k ≤ cfg.maxRetries ∨ k = 0)) ∧
    (∀ m, (downloadFileF n cfg q pid att rc (ac + 1) rem
        (retryState cfg ac stMid)).1 = Outcome.rejected m →
      (downloadFileF n cfg q pid att rc (ac + 1) rem
        (retryState cfg ac stMid)).2.1.store
        (failedKey att.outputFilePath) ≠ none) := by
  obtain ⟨⟨op2, hops2, _, _, hrej2⟩, hreq2, ⟨k, hdel2, hk⟩, hfail2⟩ :=
    IH att rc (ac + 1) rem (retryState cfg ac stMid) (by omega)
  refine ⟨?_, ?_, ?_, ?_⟩
  · exact ops_lift att.outputFilePath pid st.ops Δpre op2 _ _
      (by rw [hops2]; simp [retryState, hops]) hpre1 hpre2 hmip
      (fun m hm => (hrej2 m hm).1)
  · have hr : (retryState cfg ac stMid).requests = stMid.requests := rfl
    rw [hr] at hreq2
    omega
  · refine ⟨k + 1, ?_, by omega⟩
    have hd : (retryState cfg ac stMid).delays = st.delays ++ [backoff cfg ac] := by
      simp [retryState, hdel]
    rw [hdel2, hd]
    rw [List.range'_succ]
    simp
  · exact hfail2

/-! Component equations for the state builders, used pervasively below. -/

theorem recAcquireLock_store (q : TaskQueue) (st : DlState) (k pid : String) :
    (recAcquireLock q st k pid).1.store = (TaskQueue.acquireLock q st.store st.now k pid).1 := rfl

theorem recAcquireLock_fs (q : TaskQueue) (st : DlState) (k pid : String) :
    (recAcquireLock q st k pid).1.fs = st.fs := rfl

theorem recAcquireLock_now (q : TaskQueue) (st : DlState) (k pid : String) :
    (recAcquireLock q st k pid).1.now = st.now := rfl

theorem recAcquireLock_ops (q : TaskQueue) (st : DlState) (k pid : String) :
    (recAcquireLock q st k pid).1.ops = st.ops ++ [CoordOp.acquire k pid (TaskQueue.acquireLock q st.store st.now k pid).2] := rfl

theorem recAcquireLock_delays (q : TaskQueue) (st : DlState) (k pid : String) :
    (recAcquireLock q st k pid).1.delays = st.delays := rfl

theorem recAcquireLock_requests (q : TaskQueue) (st : DlState) (k pid : String) :
    (recAcquireLock q st k pid).1.requests = st.requests := rfl

theorem recAcquireLock_successCount (q : TaskQueue) (st : DlState) (k pid : String) :
    (recAcquireLock q st k pid).1.successCount = st.successCount := rfl

theorem recAcquireLock_failureCount (q : TaskQueue) (st : DlState) (k pid : String) :
    (recAcquireLock q st k pid).1.failureCount = st.failureCount := rfl

theorem recAcquireLock_flag (q : TaskQueue) (st : DlState) (k pid : String) :
    (recAcquireLock q st k pid).2 = (TaskQueue.acquireLock q st.store st.now k pid).2 := rfl

theorem recMarkInProgress_store (q : TaskQueue) (st : DlState) (k pid : String) :
    (recMarkInProgress q st k pid).store = TaskQueue.markInProgress q st.store st.now k pid := rfl

theorem recMarkInProgress_fs (q : TaskQueue) (st : DlState) (k pid : String) :
    (recMarkInProgress q st k pid).fs = st.fs := rfl

theorem recMarkInProgress_now (q : TaskQueue) (st : DlState) (k pid : String) :
    (recMarkInProgress q st k pid).now = st.now := rfl

theorem recMarkInProgress_ops (q : TaskQueue) (st : DlState) (k pid : String) :
    (recMarkInProgress q st k pid).ops = st.ops ++ [CoordOp.inProgress k pid] := rfl

theorem recMarkInProgress_delays (q : TaskQueue) (st : DlState) (k pid : String) :
    (recMarkInProgress q st k pid).delays = st.delays := rfl

theorem recMarkInProgress_requests (q : TaskQueue) (st : DlState) (k pid : String) :
    (recMarkInProgress q st k pid).requests = st.requests := rfl

theorem recMarkInProgress_successCount (q : TaskQueue) (st : DlState) (k pid : String) :
    (recMarkInProgress q st k pid).successCount = st.successCount := rfl

theorem recMarkInProgress_failureCount (q : TaskQueue) (st : DlState) (k pid : String) :
    (recMarkInProgress q st k pid).failureCount = st.failureCount := rfl

theorem recMarkCompleted_store (q : TaskQueue) (st : DlState) (k : String) (meta : CompletionMeta) :
    (recMarkCompleted q st k meta).store = TaskQueue.markCompleted q st.store st.now k meta := rfl

theorem recMarkCompleted_fs (q : TaskQueue) (st : DlState) (k : String) (meta : CompletionMeta) :
    (recMarkCompleted q st k meta).fs = st.fs := rfl

theorem recMarkCompleted_now (q : TaskQueue) (st : DlState) (k : String) (meta : CompletionMeta) :
    (recMarkCompleted q st k meta).now = st.now := rfl

theorem recMarkCompleted_ops (q : TaskQueue) (st : DlState) (k : String) (meta : CompletionMeta) :
    (recMarkCompleted q st k meta).ops = st.ops ++ [CoordOp.completed k meta] := rfl

theorem recMarkCompleted_delays (q : TaskQueue) (st : DlState) (k : String) (meta : CompletionMeta) :
    (recMarkCompleted q st k meta).delays = st.delays := rfl

theorem recMarkCompleted_requests (q : TaskQueue) (st : DlState) (k : String) (meta : CompletionMeta) :
    (recMarkCompleted q st k meta).requests = st.requests := rfl

theorem recMarkCompleted_successCount (q : TaskQueue) (st : DlState) (k : String) (meta : CompletionMeta) :
    (recMarkCompleted q st k meta).successCount = st.successCount := rfl

theorem recMarkCompleted_failureCount (q : TaskQueue) (st : DlState) (k : String) (meta : CompletionMeta) :
    (recMarkCompleted q st k meta).failureCount = st.failureCount := rfl

theorem recMarkFailed_store (q : TaskQueue) (st : DlState) (k e pid : String) :
    (recMarkFailed q st k e pid).store = TaskQueue.markFailed q st.store st.now k e pid := rfl

theorem recMarkFailed_fs (q : TaskQueue) (st : DlState) (k e pid : String) :
    (recMarkFailed q st k e pid).fs = st.fs := rfl

theorem recMarkFailed_now (q : TaskQueue) (st : DlState) (k e pid : String) :
    (recMarkFailed q st k e pid).now = st.now := rfl

theorem recMarkFailed_ops (q : TaskQueue) (st : DlState) (k e pid : String) :
    (recMarkFailed q st k e pid).ops = st.ops ++ [CoordOp.failed k e pid] := rfl

theorem recMarkFailed_delays (q : TaskQueue) (st : DlState) (k e pid : String) :
    (recMarkFailed q st k e pid).delays = st.delays := rfl

theorem recMarkFailed_requests (q : TaskQueue) (st : DlState) (k e pid : String) :
    (recMarkFailed q st k e pid).requests = st.requests := rfl

theorem recMarkFailed_successCount (q : TaskQueue) (st : DlState) (k e pid : String) :
    (recMarkFailed q st k e pid).successCount = st.successCount := rfl

theorem recMarkFailed_failureCount (q : TaskQueue) (st : DlState) (k e pid : String) :
    (recMarkFailed q st k e pid).failureCount = st.failureCount + 1 := rfl

theorem recReleaseLock_store (q : TaskQueue) (st : DlState) (k pid : String) :
    (recReleaseLock q st k pid).store = (TaskQueue.releaseLock q st.store st.now k pid).1 := rfl

theorem recReleaseLock_fs (q : TaskQueue) (st : DlState) (k pid : String) :
    (recReleaseLock q st k pid).fs = st.fs := rfl

theorem recReleaseLock_now (q : TaskQueue) (st : DlState) (k pid : String) :
    (recReleaseLock q st k pid).now = st.now := rfl

theorem recReleaseLock_ops (q : TaskQueue) (st : DlState) (k pid : String) :
    (recReleaseLock q st k pid).ops = st.ops ++ [CoordOp.release k pid] := rfl

theorem recReleaseLock_delays (q : TaskQueue) (st : DlState) (k pid : String) :
    (recReleaseLock q st k pid).delays = st.delays := rfl

theorem recReleaseLock_requests (q : TaskQueue) (st : DlState) (k pid : String) :
    (recReleaseLock q st k pid).requests = st.requests := rfl

theorem recReleaseLock_successCount (q : TaskQueue) (st : DlState) (k pid : String) :
    (recReleaseLock q st k pid).successCount = st.successCount := rfl

theorem recReleaseLock_failureCount (q : TaskQueue) (st : DlState) (k pid : String) :
    (recReleaseLock q st k pid).failureCount = st.failureCount := rfl

theorem recSkipSet_store (cfg : Config) (st : DlState) (k : String) :
    (recSkipSet cfg st k).store = storeSet st.store st.now (skipCacheKey k) "true" cfg.skipCacheTTL := rfl

theorem recSkipSet_fs (cfg : Config) (st : DlState) (k : String) :
    (recSkipSet cfg st k).fs = st.fs := rfl

theorem recSkipSet_now (cfg : Config) (st : DlState) (k : String) :
    (recSkipSet cfg st k).now = st.now := rfl

theorem recSkipSet_ops (cfg : Config) (st : DlState) (k : String) :
    (recSkipSet cfg st k).ops = st.ops ++ [CoordOp.skipSet k] := rfl

theorem recSkipSet_delays (cfg : Config) (st : DlState) (k : String) :
    (recSkipSet cfg st k).delays = st.delays := rfl

theorem recSkipSet_requests (cfg : Config) (st : DlState) (k : String) :
    (recSkipSet cfg st k).requests = st.requests := rfl

theorem recSkipSet_successCount (cfg : Config) (st : DlState) (k : String) :
    (recSkipSet cfg st k).successCount = st.successCount := rfl

theorem recSkipSet_failureCount (cfg : Config) (st : DlState) (k : String) :
    (recSkipSet cfg st k).failureCount = st.failureCount := rfl

theorem bumpRequests_store (st : DlState) :
    (bumpRequests st).store = st.store := rfl

theorem bumpRequests_fs (st : DlState) :
    (bumpRequests st).fs = st.fs := rfl

theorem bumpRequests_now (st : DlState) :
    (bumpRequests st).now = st.now := rfl

theorem bumpRequests_ops (st : DlState) :
    (bumpRequests st).ops = st.ops := rfl

theorem bumpRequests_delays (st : DlState) :
    (bumpRequests st).delays = st.delays := rfl

theorem bumpRequests_requests (st : DlState) :
    (bumpRequests st).requests = st.requests + 1 := rfl

theorem bumpRequests_successCount (st : DlState) :
    (bumpRequests st).successCount = st.successCount := rfl

theorem bumpRequests_failureCount (st : DlState) :
    (bumpRequests st).failureCount = st.failureCount := rfl

theorem bumpSuccess_store (st : DlState) :
    (bumpSuccess st).store = st.store := rfl

theorem bumpSuccess_fs (st : DlState) :
    (bumpSuccess st).fs = st.fs := rfl

theorem bumpSuccess_now (st : DlState) :
    (bumpSuccess st).now = st.now := rfl

theorem bumpSuccess_ops (st : DlState) :
    (bumpSuccess st).ops = st.ops := rfl

theorem bumpSuccess_delays (st : DlState) :
    (bumpSuccess st).delays = st.delays := rfl

theorem bumpSuccess_requests (st : DlState) :
    (bumpSuccess st).requests = st.requests := rfl

theorem bumpSuccess_successCount (st : DlState) :
    (bumpSuccess st).successCount = st.successCount + 1 := rfl

theorem bumpSuccess_failureCount (st : DlState) :
    (bumpSuccess st).failureCount = st.failureCount := rfl

theorem unlinkFile_store (k : String) (st : DlState) :
    (unlinkFile k st).store = st.store := rfl

theorem unlinkFile_fs (k : String) (st : DlState) :
    (unlinkFile k st).fs = st.fs.filter (fun p => p ≠ k) := rfl

theorem unlinkFile_now (k : String) (st : DlState) :
    (unlinkFile k st).now = st.now := rfl

theorem unlinkFile_ops (k : String) (st : DlState) :
    (unlinkFile k st).ops = st.ops := rfl

theorem unlinkFile_delays (k : String) (st : DlState) :
    (unlinkFile k st).delays = st.delays := rfl

theorem unlinkFile_requests (k : String) (st : DlState) :
    (unlinkFile k st).requests = st.requests := rfl

theorem unlinkFile_successCount (k : String) (st : DlState) :
    (unlinkFile k st).successCount = st.successCount := rfl

theorem unlinkFile_failureCount (k : String) (st : DlState) :
    (unlinkFile k st).failureCount = st.failureCount := rfl

theorem addFile_store (k : String) (st : DlState) :
    (addFile k st).store = st.store := rfl

theorem addFile_fs (k : String) (st : DlState) :
    (addFile k st).fs = k :: st.fs := rfl

theorem addFile_now (k : String) (st : DlState) :
    (addFile k st).now = st.now := rfl

theorem addFile_ops (k : String) (st : DlState) :
    (addFile k st).ops = st.ops := rfl

theorem addFile_delays (k : String) (st : DlState) :
    (addFile k st).delays = st.delays := rfl

theorem addFile_requests (k : String) (st : DlState) :
    (addFile k st).requests = st.requests := rfl

theorem addFile_successCount (k : String) (st : DlState) :
    (addFile k st).successCount = st.successCount := rfl

theorem addFile_failureCount (k : String) (st : DlState) :
    (addFile k st).failureCount = st.failureCount := rfl

theorem retryState_store (cfg : Config) (ac : Nat) (st : DlState) :
    (retryState cfg ac st).store = st.store := rfl

theorem retryState_fs (cfg : Config) (ac : Nat) (st : DlState) :
    (retryState cfg ac st).fs = st.fs := rfl

theorem retryState_now (cfg : Config) (ac : Nat) (st : DlState) :
    (retryState cfg ac st).now = st.now + backoff cfg ac := rfl

theorem retryState_ops (cfg : Config) (ac : Nat) (st : DlState) :
    (retryState cfg ac st).ops = st.ops := rfl

theorem retryState_delays (cfg : Config) (ac : Nat) (st : DlState) :
    (retryState cfg ac st).delays = st.delays ++ [backoff cfg ac] := rfl

theorem retryState_requests (cfg : Config) (ac : Nat) (st : DlState) :
    (retryState cfg ac st).requests = st.requests := rfl

theorem retryState_successCount (cfg : Config) (ac : Nat) (st : DlState) :
    (retryState cfg ac st).successCount = st.successCount := rfl

theorem retryState_failureCount (cfg : Config) (ac : Nat) (st : DlState) :
    (retryState cfg ac st).failureCount = st.failureCount := rfl

attribute [simp] recAcquireLock_store recAcquireLock_fs recAcquireLock_now
  recAcquireLock_ops recAcquireLock_delays recAcquireLock_requests
  recAcquireLock_successCount recAcquireLock_failureCount recAcquireLock_flag
  recMarkInProgress_store recMarkInProgress_fs recMarkInProgress_now
  recMarkInProgress_ops recMarkInProgress_delays recMarkInProgress_requests
  recMarkInProgress_successCount recMarkInProgress_failureCount
  recMarkCompleted_store recMarkCompleted_fs recMarkCompleted_now
  recMarkCompleted_ops recMarkCompleted_delays recMarkCompleted_requests
  recMarkCompleted_successCount recMarkCompleted_failureCount
  recMarkFailed_store recMarkFailed_fs recMarkFailed_now recMarkFailed_ops
  recMarkFailed_delays recMarkFailed_requests recMarkFailed_successCount
  recMarkFailed_failureCount
  recReleaseLock_store recReleaseLock_fs recReleaseLock_now recReleaseLock_ops
  recReleaseLock_delays recReleaseLock_requests recReleaseLock_successCount
  recReleaseLock_failureCount
  recSkipSet_store recSkipSet_fs recSkipSet_now recSkipSet_ops
  recSkipSet_delays recSkipSet_requests recSkipSet_successCount
  recSkipSet_failureCount
  bumpRequests_store bumpRequests_fs bumpRequests_now bumpRequests_ops
  bumpRequests_delays bumpRequests_requests bumpRequests_successCount
  bumpRequests_failureCount
  bumpSuccess_store bumpSuccess_fs bumpSuccess_now bumpSuccess_ops
  bumpSuccess_delays bumpSuccess_requests bumpSuccess_successCount
  bumpSuccess_failureCount
  unlinkFile_store unlinkFile_fs unlinkFile_now unlinkFile_ops
  unlinkFile_delays unlinkFile_requests unlinkFile_successCount
  unlinkFile_failureCount
  addFile_store addFile_fs addFile_now addFile_ops addFile_delays
  addFile_requests addFile_successCount addFile_failureCount
  retryState_store retryState_fs retryState_now retryState_ops
  retryState_delays retryState_requests retryState_successCount
  retryState_failureCount

/-- The invariant bundle for a lock-phase call that issues its request and
consumes one event, given the bundle at the next lower fuel.  One case per
response event. -/
theorem downloadFileF_event_aux (cfg : Config) (q : TaskQueue) (pid : String)
    (hq : 0 < q.lockTTL) (n : Nat)
    (IH : ∀ att rc ac events st, ac ≤ cfg.maxRetries →
      DlInv cfg q pid n att rc ac events st)
    (att : Attachment) (rc ac : Nat) (e : HttpEvent) (rest : List HttpEvent)
    (st : DlState) (hac : ac ≤ cfg.maxRetries)
    (hc : att.outputFilePath ∉ st.fs)
    (hskip : storeGet st.store st.now (skipCacheKey att.outputFilePath) = none ∨
      storeGet st.store st.now (skipCacheKey att.outputFilePath) = some "")
    (hok : (TaskQueue.acquireLock q st.store st.now att.outputFilePath pid).2 = true)
    (hrc : ¬ cfg.maxRedirects < rc)
    (hpre1 : opsPrecedeB isInProgressOp isFailedOp false
      [CoordOp.acquire att.outputFilePath pid true,
       CoordOp.inProgress att.outputFilePath pid] = true)
    (hpre2 : opsPrecedeB isInProgressOp isTransferCompletedOp false
      [CoordOp.acquire att.outputFilePath pid true,
       CoordOp.inProgress att.outputFilePath pid] = true)
    (hmipp : ([CoordOp.acquire att.outputFilePath pid true,
      CoordOp.inProgress att.outputFilePath pid]).any isInProgressOp = true) :
    DlInv cfg q pid (n + 1) att rc ac (e :: rest) st := by
  cases e with
  | badStatus c =>
    by_cases h200 : c = 200 ∨ c = 304
    case pos =>
      have heq : downloadFileF (n + 1) cfg q pid att rc ac
          (HttpEvent.badStatus c :: rest) st =
          (Outcome.pending, bumpRequests (recMarkInProgress q
            (recAcquireLock q st att.outputFilePath pid).1 att.outputFilePath pid),
            rest) := by
        rcases hskip with h | h <;> simp [downloadFileF, hc, h, hok, hrc, h200]
      unfold DlInv
      rw [heq]
      refine ⟨⟨[CoordOp.acquire att.outputFilePath pid true,
          CoordOp.inProgress att.outputFilePath pid], ?_, ?_, ?_, ?_⟩, ?_,
          ⟨0, ?_, ?_⟩, ?_⟩
      · simp [hok]
      · exact hpre1
      · exact hpre2
      · simp
      · simp
        omega
      · simp [List.range']
      · simp
      · simp
    case neg =>
      have heq : downloadFileF (n + 1) cfg q pid att rc ac
          (HttpEvent.badStatus c :: rest) st =
          (Outcome.crashed ("HTTP " ++ Nat.repr c ++ " for " ++ att.filename),
            bumpRequests (recMarkInProgress q
              (recAcquireLock q st att.outputFilePath pid).1 att.outputFilePath pid),
            rest) := by
        rcases hskip with h | h <;> simp [downloadFileF, hc, h, hok, hrc, h200]
      unfold DlInv
      rw [heq]
      refine ⟨⟨[CoordOp.acquire att.outputFilePath pid true,
          CoordOp.inProgress att.outputFilePath pid], ?_, ?_, ?_, ?_⟩, ?_,
          ⟨0, ?_, ?_⟩, ?_⟩
      · simp [hok]
      · exact hpre1
      · exact hpre2
      · simp
      · simp
        omega
      · simp [List.range']
      · simp
      · simp
  | netError m =>
    by_cases hretry : ac < cfg.maxRetries
    case pos =>
      have heq : downloadFileF (n + 1) cfg q pid att rc ac
          (HttpEvent.netError m :: rest) st =
          downloadFileF n cfg q pid att rc (ac + 1) rest
            (retryState cfg ac (unlinkFile att.outputFilePath (bumpRequests
              (recMarkInProgress q (recAcquireLock q st att.outputFilePath pid).1
                att.outputFilePath pid)))) := by
        rcases hskip with h | h <;> simp [downloadFileF, hc, h, hok, hrc, hretry]
      unfold DlInv
      rw [heq]
      exact retry_compose cfg q pid n IH att rc ac rest st
        (unlinkFile att.outputFilePath (bumpRequests (recMarkInProgress q
          (recAcquireLock q st att.outputFilePath pid).1 att.outputFilePath pid)))
        [CoordOp.acquire att.outputFilePath pid true,
         CoordOp.inProgress att.outputFilePath pid]
        1 (by simp [hok]) hpre1 hpre2 hmipp (by simp) (by omega) (by simp) hretry
    case neg =>
      have heq : downloadFileF (n + 1) cfg q pid att rc ac
          (HttpEvent.netError m :: rest) st =
          (Outcome.rejected m, recMarkFailed q (unlinkFile att.outputFilePath
            (bumpRequests (recMarkInProgress q
              (recAcquireLock q st att.outputFilePath pid).1 att.outputFilePath pid)))
            att.outputFilePath m pid, rest) := by
        rcases hskip with h | h <;> simp [downloadFileF, hc, h, hok, hrc, hretry]
      unfold DlInv
      rw [heq]
      refine ⟨⟨[CoordOp.acquire att.outputFilePath pid true,
          CoordOp.inProgress att.outputFilePath pid,
          CoordOp.failed att.outputFilePath m pid], ?_, ?_, ?_, ?_⟩, ?_,
          ⟨0, ?_, ?_⟩, ?_⟩
      · simp [hok]
      · simp [opsPrecedeB, isInProgressOp, isFailedOp]
      · simp [opsPrecedeB, isInProgressOp, isTransferCompletedOp]
      · intro m2 hm
        simp only [Outcome.rejected.injEq] at hm
        subst hm
        exact ⟨⟨[CoordOp.acquire att.outputFilePath pid true,
          CoordOp.inProgress att.outputFilePath pid], by simp⟩,
          by simp [isInProgressOp]⟩
      · simp
        omega
      · simp [List.range']
      · simp
      · intro m2 hm
        simp [markFailed_failedKey]
  | timeout =>
    have hpre1T : opsPrecedeB isInProgressOp isFailedOp false
        [CoordOp.acquire att.outputFilePath pid true,
         CoordOp.inProgress att.outputFilePath pid,
         CoordOp.skipSet att.outputFilePath,
         CoordOp.release att.outputFilePath pid] = true := by
      simp [opsPrecedeB, isInProgressOp, isFailedOp]
    have hpre2T : opsPrecedeB isInProgressOp isTransferCompletedOp false
        [CoordOp.acquire att.outputFilePath pid true,
         CoordOp.inProgress att.outputFilePath pid,
         CoordOp.skipSet att.outputFilePath,
         CoordOp.release att.outputFilePath pid] = true := by
      simp [opsPrecedeB, isInProgressOp, isTransferCompletedOp]
    have hmipT : ([CoordOp.acquire att.outputFilePath pid true,
        CoordOp.inProgress att.outputFilePath pid,
        CoordOp.skipSet att.outputFilePath,
        CoordOp.release att.outputFilePath pid]).any isInProgressOp = true := by
      simp [isInProgressOp]
    by_cases hretry : ac < cfg.maxRetries
    case pos =>
      have heq : downloadFileF (n + 1) cfg q pid att rc ac
          (HttpEvent.timeout :: rest) st =
          downloadFileF n cfg q pid att rc (ac + 1) rest
            (retryState cfg ac (recReleaseLock q (recSkipSet cfg
              (unlinkFile att.outputFilePath (bumpRequests (recMarkInProgress q
                (recAcquireLock q st att.outputFilePath pid).1 att.outputFilePath pid)))
              att.outputFilePath) att.outputFilePath pid)) := by
        rcases hskip with h | h <;> simp [downloadFileF, hc, h, hok, hrc, hretry]
      unfold DlInv
      rw [heq]
      exact retry_compose cfg q pid n IH att rc ac rest st
        (recReleaseLock q (recSkipSet cfg (unlinkFile att.outputFilePath
          (bumpRequests (recMarkInProgress q
            (recAcquireLock q st att.outputFilePath pid).1 att.outputFilePath pid)))
          att.outputFilePath) att.outputFilePath pid)
        [CoordOp.acquire att.outputFilePath pid true,
         CoordOp.inProgress att.outputFilePath pid,
         CoordOp.skipSet att.outputFilePath,
         CoordOp.release att.outputFilePath pid]
        1 (by simp [hok]) hpre1T hpre2T hmipT (by simp) (by omega) (by simp) hretry
    case neg =>
      have heq : downloadFileF (n + 1) cfg q pid att rc ac
          (HttpEvent.timeout :: rest) st =
          (Outcome.rejected "Download timeout",
            recMarkFailed q (recReleaseLock q (recSkipSet cfg
              (unlinkFile att.outputFilePath (bumpRequests (recMarkInProgress q
                (recAcquireLock q st att.outputFilePath pid).1 att.outputFilePath pid)))
              att.outputFilePath) att.outputFilePath pid)
              att.outputFilePath "Download timeout" pid, rest) := by
        rcases hskip with h | h <;> simp [downloadFileF, hc, h, hok, hrc, hretry]
      unfold DlInv
      rw [heq]
      refine ⟨⟨[CoordOp.acquire att.outputFilePath pid true,
          CoordOp.inProgress att.outputFilePath pid,
          CoordOp.skipSet att.outputFilePath,
          CoordOp.release att.outputFilePath pid,
          CoordOp.failed att.outputFilePath "Download timeout" pid], ?_, ?_, ?_, ?_⟩,
          ?_, ⟨0, ?_, ?_⟩, ?_⟩
      · simp [hok]
      · simp [opsPrecedeB, isInProgressOp, isFailedOp]
      · simp [opsPrecedeB, isInProgressOp, isTransferCompletedOp]
      · intro m2 hm
        simp only [Outcome.rejected.injEq] at hm
        subst hm
        exact ⟨⟨[CoordOp.acquire att.outputFilePath pid true,
          CoordOp.inProgress att.outputFilePath pid,
          CoordOp.skipSet att.outputFilePath,
          CoordOp.release att.outputFilePath pid], by simp⟩,
          by simp [isInProgressOp]⟩
      · simp
        omega
      · simp [List.range']
      · simp
      · intro m2 hm
        simp [markFailed_failedKey]
  | success fsz =>
    have heq : downloadFileF (n + 1) cfg q pid att rc ac
        (HttpEvent.success fsz :: rest) st =
        (Outcome.resolved { success := true, fileSize := some fsz, proxyId := pid },
          bumpSuccess (recReleaseLock q (recMarkCompleted q
            (addFile att.outputFilePath (bumpRequests (recMarkInProgress q
              (recAcquireLock q st att.outputFilePath pid).1 att.outputFilePath pid)))
            att.outputFilePath (CompletionMeta.transfer (some fsz) pid))
            att.outputFilePath pid), rest) := by
      rcases hskip with h | h <;> simp [downloadFileF, hc, h, hok, hrc]
    unfold DlInv
    rw [heq]
    refine ⟨⟨[CoordOp.acquire att.outputFilePath pid true,
        CoordOp.inProgress att.outputFilePath pid,
        CoordOp.completed att.outputFilePath (CompletionMeta.transfer (some fsz) pid),
        CoordOp.release att.outputFilePath pid], ?_, ?_, ?_, ?_⟩, ?_,
        ⟨0, ?_, ?_⟩, ?_⟩
    · simp [hok]
    · simp [opsPrecedeB, isInProgressOp, isFailedOp]
    · simp [opsPrecedeB, isInProgressOp, isTransferCompletedOp]
    · simp
    · simp
      omega
    · simp [List.range']
    · simp
    · simp
  | redirect loc =>
    have hlock := lock_visible_to_child q st.store st.now att.outputFilePath pid hq hok
    have hloc := downloadFileF_locked n cfg q pid { att with url := loc } (rc + 1) ac
      rest (bumpRequests (recMarkInProgress q
        (recAcquireLock q st att.outputFilePath pid).1 att.outputFilePath pid))
      (lockValue pid st.now) hlock
    obtain ⟨⟨opC, hopsC, _, _, _⟩, _, _, _⟩ := IH { att with url := loc } (rc + 1) ac
      rest (bumpRequests (recMarkInProgress q
        (recAcquireLock q st att.outputFilePath pid).1 att.outputFilePath pid)) hac
    rcases hC : downloadFileF n cfg q pid { att with url := loc } (rc + 1) ac rest
        (bumpRequests (recMarkInProgress q
          (recAcquireLock q st att.outputFilePath pid).1 att.outputFilePath pid))
      with ⟨o, stC, remC⟩
    rw [hC] at hloc hopsC
    obtain ⟨hreqC, hdelC, hremC, hresC, hrejC⟩ := hloc
    simp at hreqC hdelC
    simp [hok] at hopsC
    cases o with
    | rejected m => exact absurd rfl (hrejC m)
    | resolved r =>
      have heq : downloadFileF (n + 1) cfg q pid att rc ac
          (HttpEvent.redirect loc :: rest) st =
          (Outcome.resolved r, bumpSuccess (recReleaseLock q (recMarkCompleted q stC
            att.outputFilePath (CompletionMeta.transfer r.fileSize pid))
            att.outputFilePath pid), remC) := by
        rcases hskip with h | h <;> simp [downloadFileF, hc, h, hok, hrc, hC]
      unfold DlInv
      rw [heq]
      refine ⟨?_, ?_, ⟨0, ?_, ?_⟩, ?_⟩
      · refine ops_lift att.outputFilePath pid st.ops
          [CoordOp.acquire att.outputFilePath pid true,
           CoordOp.inProgress att.outputFilePath pid]
          (opC ++ [CoordOp.completed att.outputFilePath
              (CompletionMeta.transfer r.fileSize pid),
            CoordOp.release att.outputFilePath pid]) _ (Outcome.resolved r)
          ?_ hpre1 hpre2 hmipp ?_
        · simp [hopsC]
        · intro m hm
          exact absurd hm (by simp)
      · simp [hreqC]
        omega
      · simp [hdelC, List.range']
      · simp
      · simp
    | crashed m =>
      have heq : downloadFileF (n + 1) cfg q pid att rc ac
          (HttpEvent.redirect loc :: rest) st =
          (Outcome.crashed m, stC, remC) := by
        rcases hskip with h | h <;> simp [downloadFileF, hc, h, hok, hrc, hC]
      unfold DlInv
      rw [heq]
      refine ⟨?_, ?_, ⟨0, ?_, ?_⟩, ?_⟩
      · refine ops_lift att.outputFilePath pid st.ops
          [CoordOp.acquire att.outputFilePath pid true,
           CoordOp.inProgress att.outputFilePath pid] opC _ (Outcome.crashed m)
          ?_ hpre1 hpre2 hmipp ?_
        · simp [hopsC]
        · intro m2 hm
          exact absurd hm (by simp)
      · simp [hreqC]
        omega
      · simp [hdelC, List.range']
      · simp
      · simp
    | pending =>
      have heq : downloadFileF (n + 1) cfg q pid att rc ac
          (HttpEvent.redirect loc :: rest) st =
          (Outcome.pending, stC, remC) := by
        rcases hskip with h | h <;> simp [downloadFileF, hc, h, hok, hrc, hC]
      unfold DlInv
      rw [heq]
      refine ⟨?_, ?_, ⟨0, ?_, ?_⟩, ?_⟩
      · refine ops_lift att.outputFilePath pid st.ops
          [CoordOp.acquire att.outputFilePath pid true,
           CoordOp.inProgress att.outputFilePath pid] opC _ Outcome.pending
          ?_ hpre1 hpre2 hmipp ?_
        · simp [hopsC]
        · intro m2 hm
          exact absurd hm (by simp)
      · simp [hreqC]
        omega
      · simp [hdelC, List.range']
      · simp
      · simp
    | noFuel =>
      have heq : downloadFileF (n + 1) cfg q pid att rc ac
          (HttpEvent.redirect loc :: rest) st =
          (Outcome.noFuel, stC, remC) := by
        rcases hskip with h | h <;> simp [downloadFileF, hc, h, hok, hrc, hC]
      unfold DlInv
      rw [heq]
      refine ⟨?_, ?_, ⟨0, ?_, ?_⟩, ?_⟩
      · refine ops_lift att.outputFilePath pid st.ops
          [CoordOp.acquire att.outputFilePath pid true,
           CoordOp.inProgress att.outputFilePath pid] opC _ Outcome.noFuel
          ?_ hpre1 hpre2 hmipp ?_
        · simp [hopsC]
        · intro m2 hm
          exact absurd hm (by simp)
      · simp [hreqC]
        omega
      · simp [hdelC, List.range']
      · simp
      · simp


/-- The invariant bundle for a call that reaches the lock phase (destination
absent, skip-cache entry falsy), given that every call at the next lower
fuel satisfies the bundle.  This is the inductive step of
downloadFileF_invariants for all paths that issue coordination writes. -/
theorem downloadFileF_lockphase_aux (cfg : Config) (q : TaskQueue) (pid : String)
    (hq : 0 < q.lockTTL) (n : Nat)
    (IH : ∀ att rc ac events st, ac ≤ cfg.maxRetries →
      DlInv cfg q pid n att rc ac events st)
    (att : Attachment) (rc ac : Nat) (events : List HttpEvent) (st : DlState)
    (hac : ac ≤ cfg.maxRetries)
    (hc : att.outputFilePath ∉ st.fs)
    (hskip : storeGet st.store st.now (skipCacheKey att.outputFilePath) = none ∨
      storeGet st.store st.now (skipCacheKey att.outputFilePath) = some "") :
    DlInv cfg q pid (n + 1) att rc ac events st := by
  have hpre1 : opsPrecedeB isInProgressOp isFailedOp false
      [CoordOp.acquire att.outputFilePath pid true,
       CoordOp.inProgress att.outputFilePath pid] = true := by
    simp [opsPrecedeB, isInProgressOp, isFailedOp]
  have hpre2 : opsPrecedeB isInProgressOp isTransferCompletedOp false
      [CoordOp.acquire att.outputFilePath pid true,
       CoordOp.inProgress att.outputFilePath pid] = true := by
    simp [opsPrecedeB, isInProgressOp, isTransferCompletedOp]
  have hmipp : ([CoordOp.acquire att.outputFilePath pid true,
      CoordOp.inProgress att.outputFilePath pid]).any isInProgressOp = true := by
    simp [isInProgressOp]
  by_cases hok : (TaskQueue.acquireLock q st.store st.now att.outputFilePath pid).2 = true
  case neg =>
    have hacq2 : (TaskQueue.acquireLock q st.store st.now att.outputFilePath pid).2 = false := by
      simpa using hok
    have heq : downloadFileF (n + 1) cfg q pid att rc ac events st =
        (Outcome.resolved { success := false, lockedByOther := true, proxyId := pid },
          bumpSuccess (recReleaseLock q
            (recMarkCompleted q (recAcquireLock q st att.outputFilePath pid).1
              att.outputFilePath (CompletionMeta.transfer none pid))
            att.outputFilePath pid), events) := by
      rcases hskip with h | h <;> simp [downloadFileF, hc, h, hacq2]
    unfold DlInv
    rw [heq]
    refine ⟨⟨[CoordOp.acquire att.outputFilePath pid false,
        CoordOp.completed att.outputFilePath (CompletionMeta.transfer none pid),
        CoordOp.release att.outputFilePath pid], ?_, ?_, ?_, ?_⟩, ?_, ⟨0, ?_, ?_⟩, ?_⟩
    · simp [hacq2]
    · simp [opsPrecedeB, isInProgressOp, isFailedOp]
    · simp [opsPrecedeB, isInProgressOp, isTransferCompletedOp]
    · simp
    · simp
    · simp [List.range']
    · simp
    · simp
  case pos =>
    by_cases hrc : cfg.maxRedirects < rc
    case pos =>
      by_cases hretry : ac < cfg.maxRetries
      case pos =>
        have heq : downloadFileF (n + 1) cfg q pid att rc ac events st =
            downloadFileF n cfg q pid att rc (ac + 1) events
              (retryState cfg ac (recMarkInProgress q
                (recAcquireLock q st att.outputFilePath pid).1
                att.outputFilePath pid)) := by
          rcases hskip with h | h <;> simp [downloadFileF, hc, h, hok, hrc, hretry]
        unfold DlInv
        rw [heq]
        exact retry_compose cfg q pid n IH att rc ac events st
          (recMarkInProgress q (recAcquireLock q st att.outputFilePath pid).1
            att.outputFilePath pid)
          [CoordOp.acquire att.outputFilePath pid true,
           CoordOp.inProgress att.outputFilePath pid]
          0 (by simp [hok]) hpre1 hpre2 hmipp (by simp) (by omega) (by simp) hretry
      case neg =>
        have heq : downloadFileF (n + 1) cfg q pid att rc ac events st =
            (Outcome.rejected "Too many redirects",
              recMarkFailed q (recMarkInProgress q
                (recAcquireLock q st att.outputFilePath pid).1 att.outputFilePath pid)
                att.outputFilePath "Too many redirects" pid, events) := by
          rcases hskip with h | h <;> simp [downloadFileF, hc, h, hok, hrc, hretry]
        unfold DlInv
        rw [heq]
        refine ⟨⟨[CoordOp.acquire att.outputFilePath pid true,
            CoordOp.inProgress att.outputFilePath pid,
            CoordOp.failed att.outputFilePath "Too many redirects" pid],
            ?_, ?_, ?_, ?_⟩, ?_, ⟨0, ?_, ?_⟩, ?_⟩
        · simp [hok]
        · simp [opsPrecedeB, isInProgressOp, isFailedOp]
        · simp [opsPrecedeB, isInProgressOp, isTransferCompletedOp]
        · intro m hm
          simp only [Outcome.rejected.injEq] at hm
          subst hm
          exact ⟨⟨[CoordOp.acquire att.outputFilePath pid true,
            CoordOp.inProgress att.outputFilePath pid], by simp⟩,
            by simp [isInProgressOp]⟩
        · simp
        · simp [List.range']
        · simp
        · intro m hm
          simp [markFailed_failedKey]
    case neg =>
      cases events with
      | nil =>
        have heq : downloadFileF (n + 1) cfg q pid att rc ac [] st =
            (Outcome.pending, recMarkInProgress q
              (recAcquireLock q st att.outputFilePath pid).1 att.outputFilePath pid,
              ([] : List HttpEvent)) := by
          rcases hskip with h | h <;> simp [downloadFileF, hc, h, hok, hrc]
        unfold DlInv
        rw [heq]
        refine ⟨⟨[CoordOp.acquire att.outputFilePath pid true,
            CoordOp.inProgress att.outputFilePath pid], ?_, ?_, ?_, ?_⟩, ?_,
            ⟨0, ?_, ?_⟩, ?_⟩
        · simp [hok]
        · exact hpre1
        · exact hpre2
        · simp
        · simp
        · simp [List.range']
        · simp
        · simp
      | cons e rest =>
        exact downloadFileF_event_aux cfg q pid hq n IH att rc ac e rest st hac
          hc hskip hok hrc hpre1 hpre2 hmipp

/-- Every downloadFileF call, at every fuel, satisfies the invariant
bundle: trace monotone and well ordered, requests bounded by the remaining
attempt budget, delays following the backoff schedule, and surfaced
rejections ending in a markFailed whose failure record persists. -/
theorem downloadFileF_invariants (cfg : Config) (q : TaskQueue) (pid : String)
    (hq : 0 < q.lockTTL) :
    ∀ (fuel : Nat) (att : Attachment) (rc ac : Nat) (events : List HttpEvent)
      (st : DlState), ac ≤ cfg.maxRetries →
      DlInv cfg q pid fuel att rc ac events st := by
  intro fuel
  induction fuel with
  | zero =>
    intro att rc ac events st hac
    unfold DlInv
    refine ⟨⟨[], ?_, ?_, ?_, ?_⟩, ?_, ⟨0, ?_, ?_⟩, ?_⟩ <;>
      simp [downloadFileF, opsPrecedeB, List.range']
  | succ n IHn =>
    intro att rc ac events st hac
    by_cases hc : att.outputFilePath ∈ st.fs
    · have heq : downloadFileF (n + 1) cfg q pid att rc ac events st =
          (Outcome.resolved { success := true, cached := true, proxyId := pid },
            bumpSuccess (recReleaseLock q (recMarkCompleted q
              (recMarkCompleted q st att.outputFilePath CompletionMeta.alreadyExisted)
              att.outputFilePath (CompletionMeta.transfer none pid))
              att.outputFilePath pid), events) := by
        simp [downloadFileF, hc]
      unfold DlInv
      rw [heq]
      refine ⟨⟨[CoordOp.completed att.outputFilePath CompletionMeta.alreadyExisted,
          CoordOp.completed att.outputFilePath (CompletionMeta.transfer none pid),
          CoordOp.release att.outputFilePath pid], ?_, ?_, ?_, ?_⟩, ?_,
          ⟨0, ?_, ?_⟩, ?_⟩
      · simp
      · simp [opsPrecedeB, isInProgressOp, isFailedOp]
      · simp [opsPrecedeB, isInProgressOp, isTransferCompletedOp]
      · simp
      · simp
      · simp [List.range']
      · simp
      · simp
    · cases hskipE : storeGet st.store st.now (skipCacheKey att.outputFilePath) with
      | none =>
        exact downloadFileF_lockphase_aux cfg q pid hq n IHn att rc ac events st
          hac hc (Or.inl hskipE)
      | some w =>
        by_cases hw : w = ""
        · subst hw
          exact downloadFileF_lockphase_aux cfg q pid hq n IHn att rc ac events st
            hac hc (Or.inr hskipE)
        · have heq : downloadFileF (n + 1) cfg q pid att rc ac events st =
              (Outcome.resolved { success := true, skipped := true, proxyId := pid },
                bumpSuccess (recReleaseLock q (recMarkCompleted q
                  (recMarkCompleted q st att.outputFilePath
                    CompletionMeta.skippedInRedis)
                  att.outputFilePath (CompletionMeta.transfer none pid))
                  att.outputFilePath pid), events) := by
            simp [downloadFileF, hc, hskipE, hw]
          unfold DlInv
          rw [heq]
          refine ⟨⟨[CoordOp.completed att.outputFilePath CompletionMeta.skippedInRedis,
              CoordOp.completed att.outputFilePath (CompletionMeta.transfer none pid),
              CoordOp.release att.outputFilePath pid], ?_, ?_, ?_, ?_⟩, ?_,
              ⟨0, ?_, ?_⟩, ?_⟩
          · simp
          · simp [opsPrecedeB, isInProgressOp, isFailedOp]
          · simp [opsPrecedeB, isInProgressOp, isTransferCompletedOp]
          · simp
          · simp
          · simp [List.range']
          · simp
          · simp

/-- When the lock is recorded with a value that is truthy and starts with
the failing proxy's identifier (as every lock the proxy itself acquired is),
markFailed deletes it. -/
theorem markFailed_releases_lock (q : TaskQueue) (s : Store) (now : Nat)
    (k e pid v : String)
    (hv : storeGet s now (lockKey k) = some v) (hne : v ≠ "")
    (hpre : jsStartsWith v pid = true) :
    TaskQueue.markFailed q s now k e pid (lockKey k) = none := by
  obtain ⟨d1, _, h3, _, _, _, _, _, _, _⟩ := coordination_keys_distinct k
  have hv2 := hv
  simp only [storeGet] at hv2
  have hs1 : storeGet (storeSet s now (failedKey k) (failureValue now pid e)
      q.taskTTL) now (lockKey k) = some v := by
    simp only [storeGet, storeSet, if_neg h3]
    exact hv2
  have hrel : TaskQueue.releaseLock q (storeSet s now (failedKey k)
      (failureValue now pid e) q.taskTTL) now k pid =
      (storeDel (storeSet s now (failedKey k) (failureValue now pid e) q.taskTTL)
        (lockKey k), true) := by
    unfold TaskQueue.releaseLock
    rw [hs1]
    simp [hne, hpre]
  unfold TaskQueue.markFailed
  rw [hrel]
  simp [storeDel, if_neg d1]

/-- C5: an attachment whose attempts all fail (the call surfaces a rejected
outcome) performs at most MAX_RETRIES + 1 transfer attempts; the delays
recorded before the retries follow RETRY_BASE_DELAY_MS times
RETRY_BACKOFF_MULTIPLIER^(i-1) for retry i; and a surfaced rejection ends
the coordination trace with markFailed for the task, whose failure record is
present in the store afterwards — markFailed itself writing the failure
record with the retention TTL and deleting the lock when its recorded value
starts with the failing proxy's identifier.  The request bound and delay
schedule are proved for every outcome, not only failing ones. -/
theorem downloadFile_retry_policy (cfg : Config) (q : TaskQueue) (pid : String)
    (att : Attachment) (events : List HttpEvent) (st : DlState)
    (hq : 0 < q.lockTTL) :
    (ProxyDownloader.downloadFile cfg q pid att events st).2.1.requests ≤
      st.requests + (cfg.maxRetries + 1) ∧
    (∃ k, k ≤ cfg.maxRetries ∧
      (ProxyDownloader.downloadFile cfg q pid att events st).2.1.delays =
        st.delays ++ (List.range k).map
          (fun i => cfg.retryBaseDelay * cfg.retryBackoffMultiplier ^ i)) ∧
    (∀ m, (ProxyDownloader.downloadFile cfg q pid att events st).1 =
        Outcome.rejected m →
      (∃ op0, (ProxyDownloader.downloadFile cfg q pid att events st).2.1.ops =
          st.ops ++ op0 ++ [CoordOp.failed att.outputFilePath m pid]) ∧
      (ProxyDownloader.downloadFile cfg q pid att events st).2.1.store
        (failedKey att.outputFilePath) ≠ none) ∧
    (∀ (s2 : Store) (now2 : Nat) (k2 e2 v : String),
      TaskQueue.markFailed q s2 now2 k2 e2 pid (failedKey k2) =
        some ⟨failureValue now2 pid e2, now2 + q.taskTTL * 1000⟩ ∧
      (storeGet s2 now2 (lockKey k2) = some v → v ≠ "" →
        jsStartsWith v pid = true →
        TaskQueue.markFailed q s2 now2 k2 e2 pid (lockKey k2) = none)) := by
  obtain ⟨⟨op, hops, _, _, hrej⟩, hreq, ⟨k, hdel, hside⟩, hfail⟩ :=
    downloadFileF_invariants cfg q pid hq (cfg.maxRetries + events.length + 2)
      att 0 0 events st (Nat.zero_le _)
  refine ⟨?_, ?_, ?_, ?_⟩
  · simpa [ProxyDownloader.downloadFile] using hreq
  · refine ⟨k, by omega, ?_⟩
    simp only [ProxyDownloader.downloadFile]
    rw [hdel, List.range_eq_range']
    rfl
  · intro m hm
    simp only [ProxyDownloader.downloadFile] at hm ⊢
    obtain ⟨⟨op0, hop0⟩, _⟩ := hrej m hm
    refine ⟨⟨op0, ?_⟩, hfail m hm⟩
    rw [hops, hop0, List.append_assoc]
  · intro s2 now2 k2 e2 v
    exact ⟨markFailed_failedKey q s2 now2 k2 e2 pid,
      fun hv hne hpre => markFailed_releases_lock q s2 now2 k2 e2 pid v hv hne hpre⟩

/-- Witness for C5 at a concrete failing input: with maxRetries 0 a
transport error surfaces after one attempt; the theorem's hypothesis is
discharged by computation and its conclusions instantiated. -/
theorem downloadFile_retry_policy_witness :
    0 < (mkTaskQueue 0 0).lockTTL ∧
    ((ProxyDownloader.downloadFile ⟨600000, 1, 3600, 0, 2, 1000⟩ (mkTaskQueue 0 0)
        "lh" attScenario [HttpEvent.netError "boom"]
        (initState emptyStore [] 100)).2.1.requests ≤
      (initState emptyStore [] 100).requests + (0 + 1) ∧
    (∃ k, k ≤ 0 ∧
      (ProxyDownloader.downloadFile ⟨600000, 1, 3600, 0, 2, 1000⟩ (mkTaskQueue 0 0)
        "lh" attScenario [HttpEvent.netError "boom"]
        (initState emptyStore [] 100)).2.1.delays =
        (initState emptyStore [] 100).delays ++ (List.range k).map
          (fun i => 1000 * 2 ^ i)) ∧
    (∀ m, (ProxyDownloader.downloadFile ⟨600000, 1, 3600, 0, 2, 1000⟩
        (mkTaskQueue 0 0) "lh" attScenario [HttpEvent.netError "boom"]
        (initState emptyStore [] 100)).1 = Outcome.rejected m →
      (∃ op0, (ProxyDownloader.downloadFile ⟨600000, 1, 3600, 0, 2, 1000⟩
          (mkTaskQueue 0 0) "lh" attScenario [HttpEvent.netError "boom"]
          (initState emptyStore [] 100)).2.1.ops =
          (initState emptyStore [] 100).ops ++ op0 ++
            [CoordOp.failed attScenario.outputFilePath m "lh"]) ∧
      (ProxyDownloader.downloadFile ⟨600000, 1, 3600, 0, 2, 1000⟩ (mkTaskQueue 0 0)
        "lh" attScenario [HttpEvent.netError "boom"]
        (initState emptyStore [] 100)).2.1.store
        (failedKey attScenario.outputFilePath) ≠ none) ∧
    (∀ (s2 : Store) (now2 : Nat) (k2 e2 v : String),
      TaskQueue.markFailed (mkTaskQueue 0 0) s2 now2 k2 e2 "lh" (failedKey k2) =
        some ⟨failureValue now2 "lh" e2, now2 + (mkTaskQueue 0 0).taskTTL * 1000⟩ ∧
      (storeGet s2 now2 (lockKey k2) = some v → v ≠ "" →
        jsStartsWith v "lh" = true →
        TaskQueue.markFailed (mkTaskQueue 0 0) s2 now2 k2 e2 "lh" (lockKey k2) =
          none))) :=
  ⟨by decide,
    downloadFile_retry_policy ⟨600000, 1, 3600, 0, 2, 1000⟩ (mkTaskQueue 0 0) "lh"
      attScenario [HttpEvent.netError "boom"] (initState emptyStore [] 100)
      (by decide)⟩

/-- C9 (amended): along every downloadFile call, the coordination writes
appended to the trace are such that every markFailed write and every
fresh-transfer markCompleted write (one carrying a transferred file size) is
preceded by a markInProgress write for the task; completion records written
on the exists-locally and skip-cache paths are not preceded by any
in-progress write, and a completed write is not terminal — the resolve
continuation appends a second markCompleted and a releaseLock after it (see
the counterexample). -/
theorem downloadFile_order_amended (cfg : Config) (q : TaskQueue) (pid : String)
    (att : Attachment) (events : List HttpEvent) (st : DlState)
    (hq : 0 < q.lockTTL) :
    ∃ op, (ProxyDownloader.downloadFile cfg q pid att events st).2.1.ops =
        st.ops ++ op ∧
      opsPrecedeB isInProgressOp isFailedOp false op = true ∧
      opsPrecedeB isInProgressOp isTransferCompletedOp false op = true := by
  obtain ⟨⟨op, hops, hp1, hp2, _⟩, _, _, _⟩ :=
    downloadFileF_invariants cfg q pid hq (cfg.maxRetries + events.length + 2)
      att 0 0 events st (Nat.zero_le _)
  exact ⟨op, hops, hp1, hp2⟩

/-- Witness for the amended C9 theorem at a concrete input: a fresh
successful transfer, whose trace is acquire, in-progress, completed,
release. -/
theorem downloadFile_order_amended_witness :
    0 < (mkTaskQueue 0 0).lockTTL ∧
    ∃ op, (ProxyDownloader.downloadFile defaultConfig (mkTaskQueue 0 0) "lh"
        attScenario [HttpEvent.success 5]
        (initState emptyStore [] 100)).2.1.ops =
        (initState emptyStore [] 100).ops ++ op ∧
      opsPrecedeB isInProgressOp isFailedOp false op = true ∧
      opsPrecedeB isInProgressOp isTransferCompletedOp false op = true :=
  ⟨by decide,
    downloadFile_order_amended defaultConfig (mkTaskQueue 0 0) "lh" attScenario
      [HttpEvent.success 5] (initState emptyStore [] 100) (by decide)⟩

/-- C2 (amended): downloadFile calls markCompleted on more outcomes than a
fresh successful transfer.  With the destination already present locally it
resolves cached after writing a completion record with alreadyExisted
metadata (and the resolve continuation writes a second one); on a truthy
skip-cache entry it does the same with skippedInRedis metadata; and when the
lock is held elsewhere it resolves lockedByOther, yet the resolve
continuation still runs markCompleted — which also deletes the other
holder's lock record.  None of these paths issues a transfer request. -/
theorem downloadFile_markCompleted_call_sites (fuel : Nat) (cfg : Config)
    (q : TaskQueue) (pid : String) (att : Attachment) (rc ac : Nat)
    (events : List HttpEvent) (st : DlState) :
    (att.outputFilePath ∈ st.fs →
      (downloadFileF (fuel + 1) cfg q pid att rc ac events st).1 =
        Outcome.resolved { success := true, cached := true, proxyId := pid } ∧
      (downloadFileF (fuel + 1) cfg q pid att rc ac events st).2.1.ops =
        st.ops ++
          [CoordOp.completed att.outputFilePath CompletionMeta.alreadyExisted,
           CoordOp.completed att.outputFilePath (CompletionMeta.transfer none pid),
           CoordOp.release att.outputFilePath pid] ∧
      (downloadFileF (fuel + 1) cfg q pid att rc ac events st).2.1.requests =
        st.requests) ∧
    (∀ v, att.outputFilePath ∉ st.fs →
      storeGet st.store st.now (skipCacheKey att.outputFilePath) = some v →
      v ≠ "" →
      (downloadFileF (fuel + 1) cfg q pid att rc ac events st).1 =
        Outcome.resolved { success := true, skipped := true, proxyId := pid } ∧
      (downloadFileF (fuel + 1) cfg q pid att rc ac events st).2.1.ops =
        st.ops ++
          [CoordOp.completed att.outputFilePath CompletionMeta.skippedInRedis,
           CoordOp.completed att.outputFilePath (CompletionMeta.transfer none pid),
           CoordOp.release att.outputFilePath pid] ∧
      (downloadFileF (fuel + 1) cfg q pid att rc ac events st).2.1.requests =
        st.requests) ∧
    (∀ v, att.outputFilePath ∉ st.fs →
      storeGet st.store st.now (skipCacheKey att.outputFilePath) = none →
      storeGet st.store st.now (lockKey att.outputFilePath) = some v →
      (downloadFileF (fuel + 1) cfg q pid att rc ac events st).1 =
        Outcome.resolved { success := false, lockedByOther := true, proxyId := pid } ∧
      (downloadFileF (fuel + 1) cfg q pid att rc ac events st).2.1.ops =
        st.ops ++
          [CoordOp.acquire att.outputFilePath pid false,
           CoordOp.completed att.outputFilePath (CompletionMeta.transfer none pid),
           CoordOp.release att.outputFilePath pid] ∧
      (downloadFileF (fuel + 1) cfg q pid att rc ac events st).2.1.store
        (lockKey att.outputFilePath) = none ∧
      (downloadFileF (fuel + 1) cfg q pid att rc ac events st).2.1.requests =
        st.requests) := by
  refine ⟨?_, ?_, ?_⟩
  · intro hc
    refine ⟨by simp [downloadFileF, hc], by simp [downloadFileF, hc],
      by simp [downloadFileF, hc]⟩
  · intro v hc hskip hv
    refine ⟨by simp [downloadFileF, hc, hskip, hv],
      by simp [downloadFileF, hc, hskip, hv],
      by simp [downloadFileF, hc, hskip, hv]⟩
  · intro v hc hskip hlocked
    have hacq := acquireLock_locked q st.store st.now att.outputFilePath pid v hlocked
    have hdelock :=
      (markCompleted_spec q st.store st.now att.outputFilePath
        (CompletionMeta.transfer none pid)).2.2.1
    refine ⟨by simp [downloadFileF, hc, hskip, hacq],
      by simp [downloadFileF, hc, hskip, hacq],
      ?_,
      by simp [downloadFileF, hc, hskip, hacq]⟩
    simp [downloadFileF, hc, hskip, hacq, releaseLock_after_markCompleted, hdelock]

/-- Witness for the amended C2 theorem: the exists-locally conjunct applied
at a concrete input, plus the lockedByOther conjunct at a store holding a
foreign lock. -/
theorem downloadFile_markCompleted_call_sites_witness :
    (attScenario.outputFilePath ∈ (initState emptyStore ["out/f"] 100).fs ∧
      (downloadFileF 1 defaultConfig (mkTaskQueue 0 0) "lh" attScenario 0 0 []
        (initState emptyStore ["out/f"] 100)).1 =
        Outcome.resolved { success := true, cached := true, proxyId := "lh" }) ∧
    (storeGet (storeSet emptyStore 50 (lockKey "out/f") "other:50" 3600) 100
        (lockKey "out/f") = some "other:50" ∧
      (downloadFileF 1 defaultConfig (mkTaskQueue 0 0) "lh" attScenario 0 0 []
        (initState (storeSet emptyStore 50 (lockKey "out/f") "other:50" 3600)
          [] 100)).2.1.store (lockKey "out/f") = none) :=
  ⟨⟨by decide,
    ((downloadFile_markCompleted_call_sites 0 defaultConfig (mkTaskQueue 0 0) "lh"
      attScenario 0 0 [] (initState emptyStore ["out/f"] 100)).1 (by decide)).1⟩,
   ⟨by decide,
    ((downloadFile_markCompleted_call_sites 0 defaultConfig (mkTaskQueue 0 0) "lh"
      attScenario 0 0 []
      (initState (storeSet emptyStore 50 (lockKey "out/f") "other:50" 3600) [] 100)).2.2
      "other:50" (by decide) (by decide) (by decide)).2.2.1⟩⟩

/-- The lastFailure record stored by recordProxyFailure. -/
structure LastFailure where
  timestamp : Nat
  error : String
deriving DecidableEq, Repr

/-- Per-proxy health state seeded at initialize (status healthy, counter 0,
no failure) and mutated only by recordProxyFailure / attemptProxyRecovery. -/
structure ProxyHealth where
  status : String
  failureCount : Nat
  lastFailure : Option LastFailure
  createdAt : Nat
deriving DecidableEq, Repr

/-- What selection needs to know about one ProxyDownloader: its id and the
pendingCount of its two p-limit gates. -/
structure DownloaderInfo where
  proxyId : String
  postPending : Nat
  attachmentPending : Nat
deriving DecidableEq, Repr

/-- The orchestrator state relevant to selection and health: the downloader
list (registration order), the health map (a JS Map with unique keys,
modelled as an association list), the strategy string and the round-robin
cursor. -/
structure Orchestrator where
  downloaders : List DownloaderInfo
  proxyHealth : List (String × ProxyHealth)
  strategy : String
  roundRobinIndex : Nat
deriving DecidableEq, Repr

/-- Map.get on the health map. -/
def mapGet (m : List (String × ProxyHealth)) (k : String) : Option ProxyHealth :=
  match m with
  | [] => none
  | (k2, v) :: rest => if k2 = k then some v else mapGet rest k

/-- Map.set on the health map (in-place mutation of the entry in JS). -/
def mapSet (m : List (String × ProxyHealth)) (k : String) (v : ProxyHealth) :
    List (String × ProxyHealth) :=
  match m with
  | [] => []
  | (k2, w) :: rest =>
      if k2 = k then (k2, v) :: rest else (k2, w) :: mapSet rest k v

/-- ProxyOrchestrator.recordProxyFailure: increment the counter, stamp the
failure, and set unhealthy at three or more failures, else degraded at one
or more. -/
def recordProxyFailure (o : Orchestrator) (proxyId error : String) (now : Nat) :
    Orchestrator :=
  match mapGet o.proxyHealth proxyId with
  | none => o
  | some h =>
      let fc := h.failureCount + 1
      let st2 := if 3 ≤ fc then "unhealthy" else if 1 ≤ fc then "degraded" else h.status
      let h2 := { h with failureCount := fc, status := st2, lastFailure := some ⟨now, error⟩ }
      { o with proxyHealth := mapSet o.proxyHealth proxyId h2 }

/-- ProxyOrchestrator.attemptProxyRecovery: reset to healthy with counter 0
once more than five minutes have elapsed since the last recorded failure
(timestamp 0 when none).  No code in the repository invokes this method. -/
def attemptProxyRecovery (o : Orchestrator) (proxyId : String) (now : Nat) :
    Orchestrator :=
  match mapGet o.proxyHealth proxyId with
  | none => o
  | some h =>
      let ts := match h.lastFailure with | some lf => lf.timestamp | none => 0
      if 5 * 60 * 1000 < now - ts then
        let h2 := { h with status := "healthy", failureCount := 0 }
        { o with proxyHealth := mapSet o.proxyHealth proxyId h2 }
      else o

/-- ProxyOrchestrator.getProxyHealth: a read-only snapshot of the health
map (the JS object also embeds each downloader's statistics, which are
read-only too and omitted here); it performs no recovery check and no
mutation. -/
def getProxyHealth (o : Orchestrator) : List (String × ProxyHealth) :=
  o.proxyHealth

/-- Combined pending count used by the load-balanced strategy. -/
def pendingOf (d : DownloaderInfo) : Nat :=
  d.postPending + d.attachmentPending

/-- ProxyOrchestrator.selectLoadBalanced: the JS reduce keeping the
candidate with strictly fewer combined pending tasks. -/
def selectLoadBalanced (candidates : List DownloaderInfo) : Option DownloaderInfo :=
  match candidates with
  | [] => none
  | x :: xs =>
      some (xs.foldl
        (fun prev curr => if pendingOf curr < pendingOf prev then curr else prev) x)

/-- ProxyOrchestrator.selectNextProxyByStrategy: null on an empty candidate
list, else dispatch on the strategy with first-available as the default. -/
def selectNextProxyByStrategy (o : Orchestrator) (candidates : List DownloaderInfo) :
    Option DownloaderInfo × Orchestrator :=
  if candidates.length = 0 then (none, o)
  else
    match o.strategy with
    | "round-robin" =>
        (candidates[o.roundRobinIndex % candidates.length]?,
          { o with roundRobinIndex := o.roundRobinIndex + 1 })
    | "load-balanced" => (selectLoadBalanced candidates, o)
    | _ => (candidates.head?, o)

/-- True when the orchestrator's health map knows the downloader and lists
it as healthy (the filter predicate of selectProxyDownloader). -/
def isHealthyIn (o : Orchestrator) (d : DownloaderInfo) : Bool :=
  match mapGet o.proxyHealth d.proxyId with
  | some h => h.status == "healthy"
  | none => false

/-- ProxyOrchestrator.selectProxyDownloader: filter to healthy downloaders,
fall back to all downloaders when none are healthy, then apply the
strategy.  Health state is read, never written. -/
def selectProxyDownloader (o : Orchestrator) : Option DownloaderInfo × Orchestrator :=
  let healthy := o.downloaders.filter (fun d => isHealthyIn o d)
  if healthy.length = 0 then selectNextProxyByStrategy o o.downloaders
  else selectNextProxyByStrategy o healthy

/-- A freshly initialized orchestrator with one registered downloader. -/
def oFresh : Orchestrator :=
  ⟨[⟨"lh", 0, 0⟩], [("lh", ⟨"healthy", 0, none, 0⟩)], "load-balanced", 0⟩

/-- The orchestrator after n recordProxyFailure calls at times 0, 1, ... -/
def afterFailures (n : Nat) : Orchestrator :=
  (List.range n).foldl (fun o i => recordProxyFailure o "lh" "err" i) oFresh

/-- C7 (code bug evaluation): the failure-count thresholds behave as claimed
(degraded at 1 and 2 consecutive failures, unhealthy from 3 on), and
attemptProxyRecovery, when invoked after the five-minute cooldown, resets
the worker to healthy with counter 0 — but no recovery check is evaluated
when health is queried or during selection: getProxyHealth is a pure read
of the stored map and selectProxyDownloader leaves the health map
unchanged, so a worker whose cooldown elapsed long ago is still reported
unhealthy (attemptProxyRecovery has no caller anywhere in the repository). -/
theorem proxy_recovery_never_invoked :
    ((mapGet (afterFailures 1).proxyHealth "lh").map ProxyHealth.status =
      some "degraded") ∧
    ((mapGet (afterFailures 2).proxyHealth "lh").map ProxyHealth.status =
      some "degraded") ∧
    ((mapGet (afterFailures 3).proxyHealth "lh").map ProxyHealth.status =
      some "unhealthy") ∧
    ((mapGet (afterFailures 4).proxyHealth "lh").map ProxyHealth.status =
      some "unhealthy") ∧
    getProxyHealth (afterFailures 3) = (afterFailures 3).proxyHealth ∧
    (selectProxyDownloader (afterFailures 3)).2.proxyHealth =
      (afterFailures 3).proxyHealth ∧
    ((mapGet (getProxyHealth (afterFailures 3)) "lh").map ProxyHealth.status =
      some "unhealthy") ∧
    ((mapGet (attemptProxyRecovery (afterFailures 3) "lh" 10000000).proxyHealth
      "lh").map ProxyHealth.status = some "healthy") ∧
    ((mapGet (attemptProxyRecovery (afterFailures 3) "lh" 10000000).proxyHealth
      "lh").map ProxyHealth.failureCount = some 0) := by
  exact ⟨by decide, by decide, by decide, by decide, by decide, by decide,
    by decide, by decide, by decide⟩

/-- The load-balanced reduce returns one of its inputs. -/
theorem foldl_min_mem (xs : List DownloaderInfo) (x : DownloaderInfo) :
    xs.foldl (fun prev curr => if pendingOf curr < pendingOf prev then curr else prev)
      x ∈ x :: xs := by
  induction xs generalizing x with
  | nil => simp
  | cons y ys ih =>
    simp only [List.foldl]
    rcases List.mem_cons.mp (ih (if pendingOf y < pendingOf x then y else x)) with
      h3 | h3
    · rw [h3]
      by_cases hp : pendingOf y < pendingOf x <;> simp [hp]
    · simp [List.mem_cons.mpr (Or.inr (List.mem_cons.mpr (Or.inr h3)))]

/-- selectLoadBalanced returns a member of its candidate list. -/
theorem selectLoadBalanced_mem (cs : List DownloaderInfo) (d : DownloaderInfo)
    (h : selectLoadBalanced cs = some d) : d ∈ cs := by
  cases cs with
  | nil => simp [selectLoadBalanced] at h
  | cons x xs =>
    simp only [selectLoadBalanced, Option.some.injEq] at h
    rw [← h]
    exact foldl_min_mem xs x

/-- Whatever the strategy, a selected downloader comes from the candidate
list. -/
theorem strategy_mem (o : Orchestrator) (cs : List DownloaderInfo)
    (d : DownloaderInfo) (h : (selectNextProxyByStrategy o cs).1 = some d) :
    d ∈ cs := by
  unfold selectNextProxyByStrategy at h
  by_cases hlen : cs.length = 0
  · simp [hlen] at h
  · rw [if_neg hlen] at h
    split at h
    · simp only at h
      exact List.getElem?_mem h
    · exact selectLoadBalanced_mem cs d h
    · simp only at h
      exact List.mem_of_mem_head? h

/-- Whatever the strategy, a nonempty candidate list yields a selection. -/
theorem strategy_some (o : Orchestrator) (cs : List DownloaderInfo)
    (hne : cs ≠ []) : ∃ d, (selectNextProxyByStrategy o cs).1 = some d := by
  unfold selectNextProxyByStrategy
  have hlen : ¬ cs.length = 0 := by simp [List.length_eq_zero, hne]
  rw [if_neg hlen]
  split
  · have hlt : o.roundRobinIndex % cs.length < cs.length :=
      Nat.mod_lt _ (Nat.pos_of_ne_zero hlen)
    exact ⟨cs[o.roundRobinIndex % cs.length], by simp [List.getElem?_eq_getElem hlt]⟩
  · cases cs with
    | nil => exact absurd rfl hne
    | cons x xs => exact ⟨_, rfl⟩
  · cases cs with
    | nil => exact absurd rfl hne
    | cons x xs => exact ⟨x, rfl⟩

/-- On a singleton candidate list every strategy selects that candidate. -/
theorem strategy_singleton (o : Orchestrator) (d0 : DownloaderInfo) :
    (selectNextProxyByStrategy o [d0]).1 = some d0 := by
  unfold selectNextProxyByStrategy
  simp only [List.length_singleton]
  rw [if_neg (by omega)]
  split <;> simp [selectLoadBalanced, Nat.mod_one]

/-- C8: selectProxyDownloader restricts candidates to downloaders whose
recorded health status is healthy, falling back to the full registered list
when none are, before applying the strategy; hence with at least one
registered downloader it never returns null, a lone registered downloader
is returned even when unhealthy, and whenever some registered downloader is
healthy the selection is healthy (so an unhealthy one is excluded). -/
theorem selectProxyDownloader_total (o : Orchestrator)
    (hne : o.downloaders ≠ []) :
    (∃ d, (selectProxyDownloader o).1 = some d ∧ d ∈ o.downloaders) ∧
    ((∃ dh ∈ o.downloaders, isHealthyIn o dh = true) →
      ∀ d, (selectProxyDownloader o).1 = some d → isHealthyIn o d = true) ∧
    (∀ d0, o.downloaders = [d0] → (selectProxyDownloader o).1 = some d0) := by
  simp only [selectProxyDownloader]
  by_cases hh : (o.downloaders.filter (fun d => isHealthyIn o d)).length = 0
  · rw [if_pos hh]
    refine ⟨?_, ?_, ?_⟩
    · obtain ⟨d, hd⟩ := strategy_some o o.downloaders hne
      exact ⟨d, hd, strategy_mem o o.downloaders d hd⟩
    · rintro ⟨dh, hmem, hdh⟩
      have : dh ∈ o.downloaders.filter (fun d => isHealthyIn o d) :=
        List.mem_filter.mpr ⟨hmem, hdh⟩
      rw [List.length_eq_zero] at hh
      rw [hh] at this
      exact absurd this (List.not_mem_nil dh)
    · intro d0 h0
      rw [h0]
      exact strategy_singleton o d0
  · rw [if_neg hh]
    have hne2 : o.downloaders.filter (fun d => isHealthyIn o d) ≠ [] := by
      intro hcon
      exact hh (by rw [hcon]; rfl)
    refine ⟨?_, ?_, ?_⟩
    · obtain ⟨d, hd⟩ := strategy_some o _ hne2
      exact ⟨d, hd, List.mem_of_mem_filter (strategy_mem o _ d hd)⟩
    · intro _ d hd
      exact List.of_mem_filter (strategy_mem o _ d hd)
    · intro d0 h0
      have hflt : o.downloaders.filter (fun d => isHealthyIn o d) = [d0] := by
        rw [h0]
        rw [h0] at hne2
        by_cases hp : isHealthyIn o d0 = true
        · simp [List.filter, hp]
        · exact absurd (by simp [List.filter, hp]) hne2
      rw [hflt]
      exact strategy_singleton o d0

/-- Witness for C8 at concrete inputs: two registered downloaders, the
first unhealthy and the second healthy; selection succeeds and is healthy,
and a singleton orchestrator returns its only (unhealthy) downloader. -/
theorem selectProxyDownloader_total_witness :
    ((Orchestrator.mk [⟨"a", 0, 0⟩, ⟨"b", 0, 0⟩]
        [("a", ⟨"unhealthy", 3, none, 0⟩), ("b", ⟨"healthy", 0, none, 0⟩)]
        "first-available" 0).downloaders ≠ [] ∧
      (Orchestrator.mk [⟨"a", 5, 5⟩]
        [("a", ⟨"unhealthy", 3, none, 0⟩)] "load-balanced" 0).downloaders ≠ []) ∧
    (∃ d, (selectProxyDownloader (Orchestrator.mk [⟨"a", 0, 0⟩, ⟨"b", 0, 0⟩]
        [("a", ⟨"unhealthy", 3, none, 0⟩), ("b", ⟨"healthy", 0, none, 0⟩)]
        "first-available" 0)).1 = some d ∧
      d ∈ (Orchestrator.mk [⟨"a", 0, 0⟩, ⟨"b", 0, 0⟩]
        [("a", ⟨"unhealthy", 3, none, 0⟩), ("b", ⟨"healthy", 0, none, 0⟩)]
        "first-available" 0).downloaders) ∧
    (selectProxyDownloader (Orchestrator.mk [⟨"a", 5, 5⟩]
        [("a", ⟨"unhealthy", 3, none, 0⟩)] "load-balanced" 0)).1 =
      some ⟨"a", 5, 5⟩ :=
  ⟨⟨by decide, by decide⟩,
    (selectProxyDownloader_total (Orchestrator.mk [⟨"a", 0, 0⟩, ⟨"b", 0, 0⟩]
      [("a", ⟨"unhealthy", 3, none, 0⟩), ("b", ⟨"healthy", 0, none, 0⟩)]
      "first-available" 0) (by decide)).1,
    (selectProxyDownloader_total (Orchestrator.mk [⟨"a", 5, 5⟩]
      [("a", ⟨"unhealthy", 3, none, 0⟩)] "load-balanced" 0) (by decide)).2.2
      ⟨"a", 5, 5⟩ rfl⟩

/-- A proxy descriptor as parsed from PROXY_LIST (a plain JS object; absent
fields are undefined, hence the options). -/
structure ProxyCfg where
  isLocalhost : Bool := false
  ip : Option String := none
  port : Option Nat := none
  username : Option String := none
  password : Option String := none
deriving DecidableEq, Repr

/-- The observable outcomes of reading PROXY_LIST and applying JSON.parse:
variable unset (or empty, falsy), parse failure (caught), a parsed value
that is not an array, or a parsed array of descriptors. -/
inductive ParsedEnv where
  | unset
  | invalid
  | nonArray
  | array (xs : List ProxyCfg)
deriving DecidableEq, Repr

/-- The default configuration: localhost only. -/
def defaultProxies : List ProxyCfg := [{ isLocalhost := true }]

/-- getProxiesConfig of proxy-config.js: return the parsed array when it is
a nonempty array; on an unset variable, a parse error (caught), a non-array
value or an empty array, fall back to the localhost-only default. -/
def getProxiesConfig (env : ParsedEnv) : List ProxyCfg :=
  match env with
  | ParsedEnv.array xs => if 0 < xs.length then xs else defaultProxies
  | _ => defaultProxies

/-- JS truthiness of an optional string field (undefined and the empty
string are falsy). -/
def truthyStr : Option String → Bool
  | some s => s ≠ ""
  | none => false

/-- JS truthiness of an optional numeric field (undefined and 0 are falsy). -/
def truthyNat : Option Nat → Bool
  | some n => n ≠ 0
  | none => false

/-- validateProxyConfig of proxy-config.js: localhost is always valid; a
proxied egress needs a truthy ip and a truthy port. -/
def validateProxyConfig (p : ProxyCfg) : Bool :=
  if p.isLocalhost then true
  else if ¬ truthyStr p.ip ∨ ¬ truthyNat p.port then false
  else true

/-- The guard of ProxyOrchestrator.initialize that throws No proxies
configured: the result of getProxiesConfig is always an array in this
model, so only the emptiness test remains. -/
def initializeRejects (proxiesConfig : List ProxyCfg) : Bool :=
  proxiesConfig.length = 0

/-- C10: getProxiesConfig returns a nonempty list for every environment —
unset, invalid JSON, non-array, and empty array all yield the localhost
default, which validateProxyConfig always accepts — so the No proxies
configured branch of initialize is unreachable through getProxiesConfig. -/
theorem getProxiesConfig_total (env : ParsedEnv) :
    getProxiesConfig env ≠ [] ∧
    getProxiesConfig ParsedEnv.unset = defaultProxies ∧
    getProxiesConfig ParsedEnv.invalid = defaultProxies ∧
    getProxiesConfig ParsedEnv.nonArray = defaultProxies ∧
    getProxiesConfig (ParsedEnv.array []) = defaultProxies ∧
    (∀ p ∈ defaultProxies, validateProxyConfig p = true) ∧
    initializeRejects (getProxiesConfig env) = false := by
  refine ⟨?_, rfl, rfl, rfl, by decide, by decide, ?_⟩
  · cases env with
    | array xs =>
      cases xs with
      | nil => decide
      | cons x rest => simp [getProxiesConfig]
    | unset => decide
    | invalid => decide
    | nonArray => decide
  · cases env with
    | array xs =>
      cases xs with
      | nil => decide
      | cons x rest => simp [getProxiesConfig, initializeRejects]
    | unset => decide
    | invalid => decide
    | nonArray => decide

/-- Witness for C10 at a concrete environment: the empty-array case falls
back to the localhost default, which validates. -/
theorem getProxiesConfig_total_witness :
    getProxiesConfig (ParsedEnv.array []) ≠ [] ∧
    ({ isLocalhost := true } : ProxyCfg) ∈ defaultProxies ∧
    validateProxyConfig { isLocalhost := true } = true :=
  ⟨(getProxiesConfig_total (ParsedEnv.array [])).1, by decide,
    (getProxiesConfig_total (ParsedEnv.array [])).2.2.2.2.2.1
      { isLocalhost := true } (by decide)⟩
